import Mathlib

/-!
Verification of the Type-Scribe AI backend
(`backend/app/main.py` of the `global-agent-hackathon-may-2025` submission).

The backend is a FastAPI service that turns API documentation into a
TypeScript SDK by chaining two external collaborators: the Graphlit
document-ingestion service and Agno/Gemini language-model agents.  The
shallow embedding below models the request-handling code of `main.py`
over an explicit environment of external-service oracles.  Every
external interaction (Graphlit GraphQL calls and agent invocations) is
recorded in a trace, so claims of the form "no network call is made"
become statements about the trace.

Python exceptions are modelled by `PyExc`; FastAPI `HTTPException` is a
subclass of `Exception` in Python, so a bare `except Exception` clause
catches it — the model reproduces this (`pyTry` handlers receive every
`PyExc`, including `.http`).  `str(e)` for an `HTTPException` follows
Starlette and renders as "(status_code): (detail)".

The large constant prompt texts sent to the language-model agents are
modelled as records of the values interpolated into them
(`TeamInput`, `UsagePrompt`): the surrounding literal text is constant,
flows only to the external model, and is never inspected by the code.
-/

/-- Python exceptions that can propagate through the handler:
FastAPI `HTTPException`, `graphlit_api.exceptions.GraphQLClientError`
(carrying the string rendering of its `errors` attribute), and any other
exception (carrying `str(e)`). -/
inductive PyExc where
  | http (status_code : Nat) (detail : String)
  | gql (errors : String)
  | other (msg : String)
deriving DecidableEq

/-- Python `str(e)` for a caught exception.  For `HTTPException`, Starlette
renders "(status_code): (detail)".  For a `GraphQLClientError` the code
always accesses the string through its `errors` attribute, which the
`gql` constructor carries directly. -/
def strExc : PyExc → String
  | .http status_code detail => toString status_code ++ ": " ++ detail
  | .gql errors => errors
  | .other msg => msg

/-- Outcome of one external (network) call as seen by the caller. -/
inductive CallResult (α : Type) where
  | ok (a : α)
  | gqlError (errors : String)
  | exn (msg : String)
deriving DecidableEq

/-- Values interpolated into `team_initial_input`, the prompt given to
`sdk_generation_team.arun` (the constant surrounding text is omitted:
it flows only to the external model). -/
structure TeamInput where
  raw_doc_content : String
  sdk_name : String
  version : String
  base_url : String
deriving DecidableEq

/-- Values interpolated into the prompt given to the usage-example
agent's `arun` inside `generate_sdk_usage_example`. -/
structure UsagePrompt where
  sdk_code : String
  sdk_name : String
  base_url : String
deriving DecidableEq

/-- One external network interaction performed by the backend. -/
inductive NetCall where
  | queryWorkflows (name : String)
  | createWorkflow (name : String)
  | ingestUri (uri : String) (workflow : String)
  | ingestEncodedFile (name : String) (data : String) (mimeType : Option String) (workflow : String)
  | getContent (id : String)
  | teamArun (input : TeamInput)
  | usageArun (prompt : UsagePrompt)
deriving DecidableEq

def NetCall.isWorkflowCallB : NetCall → Bool
  | .queryWorkflows _ => true
  | .createWorkflow _ => true
  | _ => false

def NetCall.isCreateWorkflowB : NetCall → Bool
  | .createWorkflow _ => true
  | _ => false

def NetCall.isUriIngestB : NetCall → Bool
  | .ingestUri _ _ => true
  | _ => false

def NetCall.isFileIngestB : NetCall → Bool
  | .ingestEncodedFile _ _ _ _ => true
  | _ => false

def NetCall.isGetContentB : NetCall → Bool
  | .getContent _ => true
  | _ => false

/-- Language-model invocations (the Agno team and the usage agent). -/
def NetCall.isModelCallB : NetCall → Bool
  | .teamArun _ => true
  | .usageArun _ => true
  | _ => false

/-- The chain `content_details.content.markdown` as returned by Graphlit
`get_content`: each level may be absent. -/
structure ContentInner where
  markdown : Option String
deriving DecidableEq

structure ContentDetails where
  content : Option ContentInner
deriving DecidableEq

/-- The markdown reachable through
`content_details.content.markdown` when every level of
`not content_details or not content_details.content or not
content_details.content.markdown` is truthy (Python truthiness: `None`
and the empty string are falsy). -/
def mdOf : Option ContentDetails → Option String
  | some { content := some { markdown := some md } } =>
      if md = "" then none else some md
  | _ => none

/-- Behaviour of the external collaborators, as state-transforming
oracles over an abstract service state `σ`.  Each field corresponds to
one remote operation invoked by `main.py`. -/
structure Env (σ : Type) where
  query_workflows : String → σ → CallResult (List String) × σ
  create_workflow : String → σ → CallResult String × σ
  ingest_uri : String → String → σ → CallResult (Option String) × σ
  ingest_encoded_file : String → String → Option String → String → σ → CallResult (Option String) × σ
  get_content : String → σ → CallResult (Option ContentDetails) × σ
  team_arun : TeamInput → σ → CallResult String × σ
  usage_agent_arun : UsagePrompt → σ → CallResult String × σ

/-- The service state together with the record of network calls made so
far during the request. -/
structure ReqState (σ : Type) where
  svc : σ
  trace : List NetCall

/-- Request computation: explicit state passing with Python-style
exceptions.  Errors abort the remaining computation but keep the state
reached so far (network calls already made stay in the trace). -/
def ReqM (σ : Type) (α : Type) : Type :=
  ReqState σ → Except PyExc α × ReqState σ

def ReqM.pure (a : α) : ReqM σ α := fun s => (.ok a, s)

def ReqM.bind (m : ReqM σ α) (f : α → ReqM σ β) : ReqM σ β := fun s =>
  match m s with
  | (.ok a, s') => f a s'
  | (.error e, s') => (.error e, s')

/-- Python `raise e`. -/
def pyRaise (e : PyExc) : ReqM σ α := fun s => (.error e, s)

/-- A `try:`/`except:` block: run `m`; on an exception, run the handler
from the state reached at the point of failure. -/
def pyTry (m : ReqM σ α) (h : PyExc → ReqM σ α) : ReqM σ α := fun s =>
  match m s with
  | (.ok a, s') => (.ok a, s')
  | (.error e, s') => h e s'

/-- Perform one external call: consult the oracle, record the call in
the trace, and convert a failing outcome into the raised exception. -/
def callSvc (c : NetCall) (op : σ → CallResult α × σ) : ReqM σ α := fun s =>
  let r := op s.svc
  let s' : ReqState σ := ⟨r.2, s.trace ++ [c]⟩
  match r.1 with
  | .ok a => (.ok a, s')
  | .gqlError errors => (.error (.gql errors), s')
  | .exn msg => (.error (.other msg), s')

/-- Python truthiness of an `Optional[str]`: `None` and `""` are falsy. -/
def pyTruthyStr : Option String → Bool
  | none => false
  | some s => s != ""

/-- Python truthiness of an `Optional[bytes]`: `None` and `b""` are falsy. -/
def pyTruthyBytes : Option (List Nat) → Bool
  | none => false
  | some b => !b.isEmpty

/-- The whitespace characters removed by Python `str.strip()`. -/
def isPyWs (c : Char) : Bool :=
  c = ' ' || c = '\t' || c = '\n' || c = '\x0d' || c = '\x0b' || c = '\x0c'

/-- Python `str.strip()` with no arguments. -/
def pyStrip (s : String) : String :=
  ⟨((s.data.dropWhile isPyWs).reverse.dropWhile isPyWs).reverse⟩

def leadsWith : List Char → List Char → Bool
  | [], _ => true
  | _ :: _, [] => false
  | a :: as, b :: bs => a = b && leadsWith as bs

def containsSub (needle : List Char) : List Char → Bool
  | [] => needle.isEmpty
  | c :: rest => leadsWith needle (c :: rest) || containsSub needle rest

/-- Python `needle in hay` on strings (substring containment). -/
def strContainsSub (hay needle : String) : Bool :=
  containsSub needle.data hay.data

/-- Python `s.lower()` (ASCII case folding suffices for the extension checks). -/
def pyLower (s : String) : String := ⟨s.data.map Char.toLower⟩

/-- Python `s.endswith(suffix)` on strings. -/
def strEndsWith (s suffix : String) : Bool :=
  leadsWith suffix.data.reverse s.data.reverse

def base64Table : List Char :=
  "ABCDEFGHIJKLMNOPQRSTUVWXYZabcdefghijklmnopqrstuvwxyz0123456789+/".data

def b64Char (i : Nat) : Char := base64Table.getD i 'A'

def b64Groups : List Nat → List Char
  | [] => []
  | [b0] => [b64Char (b0 / 4), b64Char (b0 % 4 * 16), '=', '=']
  | [b0, b1] => [b64Char (b0 / 4), b64Char (b0 % 4 * 16 + b1 / 16), b64Char (b1 % 16 * 4), '=']
  | b0 :: b1 :: b2 :: rest =>
      b64Char (b0 / 4) :: b64Char (b0 % 4 * 16 + b1 / 16) ::
        b64Char (b1 % 16 * 4 + b2 / 64) :: b64Char (b2 % 64) :: b64Groups rest

/-- Python `base64.b64encode(file_content).decode("utf-8")`. -/
def base64_encode (bytes : List Nat) : String := ⟨b64Groups bytes⟩

/-- A FastAPI `UploadFile`: original filename, declared content type,
and the bytes returned by `doc_file.read()`. -/
structure UploadFile where
  filename : String
  content_type : Option String
  content : List Nat
deriving DecidableEq

/-- The response model returned by `/generate-sdk`. -/
structure GenerateSdkResponse where
  sdk_code : String
  sdk_usage_example : String
  message : String
deriving DecidableEq

/-- The extension table the handler falls back to when
`mimetypes.guess_type` yields nothing, ending in the generic binary
fallback. -/
def extension_fallback (file_name_original : String) : String :=
  if strEndsWith (pyLower file_name_original) ".md" then ("text/markdown")
  else if strEndsWith (pyLower file_name_original) ".txt" then ("text/plain")
  else if strEndsWith (pyLower file_name_original) ".pdf" then ("application/pdf")
  else if strEndsWith (pyLower file_name_original) ".docx" then
    ("application/vnd.openxmlformats-officedocument.wordprocessingml.document")
  else if strEndsWith (pyLower file_name_original) ".pptx" then
    ("application/vnd.openxmlformats-officedocument.presentationml.presentation")
  else ("application/octet-stream")

/-- The improved MIME type inference block of `generate_sdk_endpoint`
(lines 512-545): start from the declared content type; when it is
`application/octet-stream` or falsy, consult
`mimetypes.guess_type` (passed in as `guess_type`, since it is Python
standard-library behaviour); when that yields nothing, use the fixed
extension table with the generic binary fallback. -/
def resolve_mime_type (guess_type : String → Option String)
    (content_type : Option String) (file_name_original : String) : String :=
  if content_type = some ("application/octet-stream") || !(pyTruthyStr content_type) then
    match guess_type file_name_original with
    | some guessed => if guessed != "" then guessed else extension_fallback file_name_original
    | none => extension_fallback file_name_original
  else (content_type.getD (""))

/-- The fixed workflow name used by `get_or_create_graphlit_workflow`. -/
def workflow_name : String := "ApiDocTextExtractionWorkflow"

/-- Model of `get_or_create_graphlit_workflow(client)`: query workflows by the
fixed name; reuse the first result when the result list is non-empty,
otherwise create the workflow.  `GraphQLClientError` and any other
exception are wrapped into `HTTPException(500, ...)`. -/
def get_or_create_graphlit_workflow (env : Env σ) : ReqM σ String :=
  pyTry
    (ReqM.bind (callSvc (.queryWorkflows workflow_name) (env.query_workflows workflow_name))
      (fun results =>
        match results with
        | wid :: _ => ReqM.pure wid
        | [] =>
            ReqM.bind (callSvc (.createWorkflow workflow_name) (env.create_workflow workflow_name))
              (fun created => ReqM.pure created)))
    (fun e =>
      match e with
      | .gql errors =>
          pyRaise (.http 500 ("Graphlit API error during workflow creation: " ++ errors))
      | e =>
          pyRaise (.http 500 ("Backend error during Graphlit workflow setup: " ++ strExc e)))

/-- Model of `ingest_document_with_graphlit`: provision the workflow (outside the
`try` block), then ingest by URI or by base64-encoded file content; with
neither source, raise the 400 validation error — which the enclosing
`except Exception` clause catches (HTTPException is an Exception in
Python) and re-raises wrapped as a 500. -/
def ingest_document_with_graphlit (env : Env σ) (doc_name : String)
    (doc_uri : Option String) (file_content : Option (List Nat))
    (mime_type : Option String) : ReqM σ String :=
  ReqM.bind (get_or_create_graphlit_workflow env) (fun workflow_id =>
    pyTry
      (ReqM.bind
        (if pyTruthyStr doc_uri then
          ReqM.bind
            (callSvc (.ingestUri (doc_uri.getD ("")) workflow_id)
              (env.ingest_uri (doc_uri.getD ("")) workflow_id))
            (fun response => ReqM.pure response)
        else if pyTruthyBytes file_content then
          ReqM.bind
            (callSvc
              (.ingestEncodedFile doc_name (base64_encode (file_content.getD [])) mime_type workflow_id)
              (env.ingest_encoded_file doc_name (base64_encode (file_content.getD [])) mime_type workflow_id))
            (fun response => ReqM.pure response)
        else
          pyRaise (.http 400 ("Either doc_url or uploaded file content is required for ingestion.")))
        (fun content_id =>
          if pyTruthyStr content_id then ReqM.pure (content_id.getD (""))
          else pyRaise (.http 500 ("Graphlit ingestion failed to return a content ID."))))
      (fun e =>
        match e with
        | .gql errors =>
            pyRaise (.http 500 ("Graphlit API error during ingestion: " ++ errors))
        | e =>
            pyRaise (.http 500 ("Backend error during ingestion: " ++ strExc e))))

/-- Model of `get_content_markdown_from_graphlit`: fetch the content by id and
return its markdown; when any level of the chain is absent or the
markdown is empty, raise the 500 — which the enclosing
`except Exception` clause catches and re-raises wrapped. -/
def get_content_markdown_from_graphlit (env : Env σ) (content_id : String) : ReqM σ String :=
  pyTry
    (ReqM.bind (callSvc (.getContent content_id) (env.get_content content_id))
      (fun content_details =>
        match mdOf content_details with
        | some md => ReqM.pure md
        | none =>
            pyRaise (.http 500
              ("Failed to retrieve markdown content for ID " ++ content_id ++
                " from Graphlit. Content might not be processed yet, or is empty."))))
    (fun e =>
      match e with
      | .gql errors =>
          pyRaise (.http 500 ("Graphlit API error retrieving content: " ++ errors))
      | e =>
          pyRaise (.http 500 ("Backend error retrieving content: " ++ strExc e)))

/-- The fixed fallback string returned when the usage-example stage
fails. -/
def usage_example_fallback : String := "Error generating usage example."

/-- Model of `generate_sdk_usage_example`: invoke the usage agent and strip the
response; on any exception return the fixed fallback string (this stage
never raises). -/
def generate_sdk_usage_example (env : Env σ)
    (sdk_code sdk_name base_url : String) : ReqM σ String :=
  pyTry
    (ReqM.bind
      (callSvc (.usageArun ⟨sdk_code, sdk_name, base_url⟩)
        (env.usage_agent_arun ⟨sdk_code, sdk_name, base_url⟩))
      (fun response => ReqM.pure (pyStrip response)))
    (fun _ => ReqM.pure usage_example_fallback)

/-- The heuristic plausibility keywords checked on the generated code. -/
def sdk_keywords : List String := ["interface", "class", "async", "fetch"]

/-- Python `not generated_sdk_code or not any(kw in generated_sdk_code ...)`:
true when the generated code must be rejected. -/
def sdk_code_rejected (generated_sdk_code : String) : Bool :=
  generated_sdk_code == "" ||
    !(sdk_keywords.any (fun kw => strContainsSub generated_sdk_code kw))

/-- Step 1 of the endpoint body: select the document source and ingest
it — by URL (passing `sdk_name` as the document name), or by uploaded
file (reading its bytes and resolving its MIME type).  When no branch
runs, `content_id` keeps its initial `None`. -/
def select_and_ingest (env : Env σ) (guess_type : String → Option String)
    (sdk_name : String) (doc_url : Option String)
    (doc_file : Option UploadFile) : ReqM σ (Option String) :=
  if pyTruthyStr doc_url then
    ReqM.bind (ingest_document_with_graphlit env sdk_name doc_url none none)
      (fun cid => ReqM.pure (some cid))
  else
    match doc_file with
    | some f =>
        ReqM.bind
          (ingest_document_with_graphlit env f.filename none (some f.content)
            (some (resolve_mime_type guess_type f.content_type f.filename)))
          (fun cid => ReqM.pure (some cid))
    | none => ReqM.pure none

/-- Steps 2-3 of the endpoint body: require a content id, retrieve the
markdown, reject blank content, run the orchestration team, and reject
implausible output.  Returns the generated SDK code. -/
def process_ingested_content (env : Env σ) (sdk_name version base_url : String)
    (content_id : Option String) : ReqM σ String :=
  if !(pyTruthyStr content_id) then
    pyRaise (.http 500
      ("Graphlit ingestion failed to return a content ID. This may indicate an issue with Graphlit service or provided credentials/document."))
  else
    ReqM.bind (get_content_markdown_from_graphlit env (content_id.getD ("")))
      (fun raw_doc_content =>
        if pyStrip raw_doc_content = "" then
          pyRaise (.http 500
            ("Retrieved empty or invalid documentation content from Graphlit. Ensure the document contains readable text."))
        else
          ReqM.bind
            (callSvc (.teamArun ⟨raw_doc_content, sdk_name, version, base_url⟩)
              (env.team_arun ⟨raw_doc_content, sdk_name, version, base_url⟩))
            (fun generated_sdk_code =>
              if sdk_code_rejected generated_sdk_code then
                pyRaise (.http 500
                  ("SDK generation failed or returned invalid TypeScript code. This might indicate issues with the API documentation or the LLM\x27s understanding/generation capabilities. Check backend logs for more details."))
              else ReqM.pure generated_sdk_code))

/-- The body of `generate_sdk_endpoint` up to and including the
generation-quality check. -/
def acquire_sdk_code (env : Env σ) (guess_type : String → Option String)
    (sdk_name version base_url : String) (doc_url : Option String)
    (doc_file : Option UploadFile) : ReqM σ String :=
  ReqM.bind (select_and_ingest env guess_type sdk_name doc_url doc_file)
    (process_ingested_content env sdk_name version base_url)

/-- The success template for the response `message` field. -/
def success_message (sdk_name : String) : String :=
  "TypeScript SDK generated successfully! SDK Name: " ++ sdk_name

/-- The whole `try` block of `generate_sdk_endpoint`: acquire the SDK
code, generate the usage example (never fails), and assemble the
response. -/
def generate_sdk_body (env : Env σ) (guess_type : String → Option String)
    (sdk_name version base_url : String) (doc_url : Option String)
    (doc_file : Option UploadFile) : ReqM σ GenerateSdkResponse :=
  ReqM.bind (acquire_sdk_code env guess_type sdk_name version base_url doc_url doc_file)
    (fun generated_sdk_code =>
      ReqM.bind (generate_sdk_usage_example env generated_sdk_code sdk_name base_url)
        (fun usage_example =>
          ReqM.pure ⟨generated_sdk_code, usage_example, success_message sdk_name⟩))

/-- The validation-error detail for a request with neither document
source. -/
def missing_source_detail : String :=
  "No API documentation provided. Please provide either a URL for the documentation or upload a file."

/-- Model of `generate_sdk_endpoint`: validate that a document source is present
(before anything else), require the startup-initialized Graphlit client
(`client_ok` models whether `graphlit_client_instance` was initialized),
then run the body under the endpoint-level `except HTTPException:
raise` / `except Exception` pair. -/
def generate_sdk_endpoint (env : Env σ) (guess_type : String → Option String)
    (client_ok : Bool) (sdk_name version base_url : String)
    (doc_url : Option String) (doc_file : Option UploadFile) :
    ReqM σ GenerateSdkResponse :=
  if !(pyTruthyStr doc_url) && doc_file.isNone then
    pyRaise (.http 400 missing_source_detail)
  else if !client_ok then
    pyRaise (.http 500
      ("Graphlit client not initialized. Check backend logs for errors related to GRAPHLIT_ environment variables."))
  else
    pyTry (generate_sdk_body env guess_type sdk_name version base_url doc_url doc_file)
      (fun e =>
        match e with
        | .http status_code detail => pyRaise (.http status_code detail)
        | e =>
            pyRaise (.http 500
              ("An unexpected internal server error occurred: " ++ strExc e ++
                ". Please check backend logs for more details.")))

/-- Run one request against fresh trace-recording state. -/
def runGenerateSdk (env : Env σ) (guess_type : String → Option String)
    (client_ok : Bool) (sdk_name version base_url : String)
    (doc_url : Option String) (doc_file : Option UploadFile) (svc : σ) :
    Except PyExc GenerateSdkResponse × ReqState σ :=
  generate_sdk_endpoint env guess_type client_ok sdk_name version base_url doc_url doc_file
    ⟨svc, []⟩

/-- Replace only the usage-example agent behaviour of an environment. -/
def Env.withUsage (env : Env σ) (g : UsagePrompt → σ → CallResult String × σ) : Env σ :=
  { env with usage_agent_arun := g }

/-! ### Concrete environments

An honest model of the Graphlit workflow store (for the idempotence
claim about the Workflow Provisioner), and simple deterministic
environments used as concrete witnesses. -/

structure Workflow where
  name : String
  id : String
deriving DecidableEq

/-- Honest service state for the Graphlit workflow store: the workflows
that exist, and a counter for fresh identifiers. -/
structure GraphlitState where
  workflows : List Workflow
  freshId : Nat
deriving DecidableEq

/-- Honest `queryWorkflows`: return the ids of the workflows whose name
matches the filter, in store order. -/
def honestQueryWorkflows (name : String) (s : GraphlitState) :
    CallResult (List String) × GraphlitState :=
  (.ok ((s.workflows.filter (fun w => w.name == name)).map Workflow.id), s)

/-- Honest `createWorkflow`: register a workflow under a fresh id and
return the id. -/
def honestCreateWorkflow (name : String) (s : GraphlitState) :
    CallResult String × GraphlitState :=
  (.ok ("workflow-" ++ toString s.freshId),
    ⟨s.workflows ++ [⟨name, "workflow-" ++ toString s.freshId⟩], s.freshId + 1⟩)

/-- An environment whose workflow operations follow the honest Graphlit
model; the remaining operations succeed with fixed simple values. -/
def honestGraphlitEnv : Env GraphlitState where
  query_workflows := honestQueryWorkflows
  create_workflow := honestCreateWorkflow
  ingest_uri := fun _ _ s => (.ok (some ("content-1")), s)
  ingest_encoded_file := fun _ _ _ _ s => (.ok (some ("content-2")), s)
  get_content := fun _ s => (.ok (some ⟨some ⟨some ("# Example API docs")⟩⟩), s)
  team_arun := fun _ s => (.ok ("class MyApiSdk extends Object"), s)
  usage_agent_arun := fun _ s => (.ok ("const sdk = new MyApiSdk(baseUrl);"), s)

/-- A stateless deterministic environment for the happy path. -/
def testEnv : Env Unit where
  query_workflows := fun _ s => (.ok ["wf-1"], s)
  create_workflow := fun _ s => (.ok ("wf-new"), s)
  ingest_uri := fun _ _ s => (.ok (some ("content-1")), s)
  ingest_encoded_file := fun _ _ _ _ s => (.ok (some ("content-2")), s)
  get_content := fun _ s => (.ok (some ⟨some ⟨some ("# Example API docs")⟩⟩), s)
  team_arun := fun _ s => (.ok ("class MyApiSdk extends Object"), s)
  usage_agent_arun := fun _ s => (.ok ("const sdk = new MyApiSdk(baseUrl);"), s)

/-- Variant of `testEnv` with a Graphlit outage: every workflow query fails. -/
def outageEnv : Env Unit :=
  { testEnv with query_workflows := fun _ s => (.gqlError ("service unavailable"), s) }

/-- Variant of `testEnv` with blank (whitespace-only) retrieved markdown. -/
def blankContentEnv : Env Unit :=
  { testEnv with get_content := fun _ s => (.ok (some ⟨some ⟨some ("   ")⟩⟩), s) }

/-- A usage-agent behaviour that always raises. -/
def failingUsageAgent : UsagePrompt → Unit → CallResult String × Unit :=
  fun _ s => (.exn ("usage agent crashed"), s)

/-- A `mimetypes.guess_type` model that knows only `.pdf` (matching a
platform whose table lacks an entry for `.md`). -/
def guessPdfOnly : String → Option String :=
  fun fn => if strEndsWith (pyLower fn) ".pdf" then some ("application/pdf") else none

/-! ### Infrastructure lemmas -/

def CallResult.isOkB : CallResult α → Bool
  | .ok _ => true
  | _ => false

theorem ReqM.bind_apply (m : ReqM σ α) (f : α → ReqM σ β) (s : ReqState σ) :
    ReqM.bind m f s =
      match m s with
      | (.ok a, s') => f a s'
      | (.error e, s') => (.error e, s') := rfl

theorem pyTry_apply (m : ReqM σ α) (h : PyExc → ReqM σ α) (s : ReqState σ) :
    pyTry m h s =
      match m s with
      | (.ok a, s') => (.ok a, s')
      | (.error e, s') => h e s' := rfl

/-- The new calls of a computation step all satisfy `p`. -/
def TraceAll (p : NetCall → Bool) (s s' : ReqState σ) : Prop :=
  ∃ l, s'.trace = s.trace ++ l ∧ l.all p = true

theorem TraceAll.rfl (p : NetCall → Bool) (s : ReqState σ) : TraceAll p s s :=
  ⟨[], by simp⟩

theorem TraceAll.trans {p : NetCall → Bool} {s₁ s₂ s₃ : ReqState σ}
    (h₁ : TraceAll p s₁ s₂) (h₂ : TraceAll p s₂ s₃) : TraceAll p s₁ s₃ := by
  obtain ⟨l₁, e₁, a₁⟩ := h₁
  obtain ⟨l₂, e₂, a₂⟩ := h₂
  exact ⟨l₁ ++ l₂, by simp [e₂, e₁], by simp_all⟩

theorem TraceAll.mono {p q : NetCall → Bool} {s s' : ReqState σ}
    (hpq : ∀ c, p c = true → q c = true) (h : TraceAll p s s') : TraceAll q s s' := by
  obtain ⟨l, e, a⟩ := h
  refine ⟨l, e, ?_⟩
  simp only [List.all_eq_true] at a ⊢
  exact fun c hc => hpq c (a c hc)

theorem TraceAll.single (p : NetCall → Bool) (c : NetCall) (hc : p c = true)
    (s : ReqState σ) (svc' : σ) : TraceAll p s ⟨svc', s.trace ++ [c]⟩ :=
  ⟨[c], by simp [hc]⟩

/-! ### `get_or_create_graphlit_workflow` -/

/-- Full characterization of one run of the Workflow Provisioner. -/
theorem get_or_create_run (env : Env σ) (s : ReqState σ) :
    get_or_create_graphlit_workflow env s =
      match env.query_workflows workflow_name s.svc with
      | (.ok (wid :: _), svc₁) =>
          (.ok wid, ⟨svc₁, s.trace ++ [.queryWorkflows workflow_name]⟩)
      | (.ok [], svc₁) =>
          match env.create_workflow workflow_name svc₁ with
          | (.ok created, svc₂) =>
              (.ok created,
                ⟨svc₂, s.trace ++ [.queryWorkflows workflow_name] ++ [.createWorkflow workflow_name]⟩)
          | (.gqlError m, svc₂) =>
              (.error (.http 500 ("Graphlit API error during workflow creation: " ++ m)),
                ⟨svc₂, s.trace ++ [.queryWorkflows workflow_name] ++ [.createWorkflow workflow_name]⟩)
          | (.exn m, svc₂) =>
              (.error (.http 500 ("Backend error during Graphlit workflow setup: " ++ m)),
                ⟨svc₂, s.trace ++ [.queryWorkflows workflow_name] ++ [.createWorkflow workflow_name]⟩)
      | (.gqlError m, svc₁) =>
          (.error (.http 500 ("Graphlit API error during workflow creation: " ++ m)),
            ⟨svc₁, s.trace ++ [.queryWorkflows workflow_name]⟩)
      | (.exn m, svc₁) =>
          (.error (.http 500 ("Backend error during Graphlit workflow setup: " ++ m)),
            ⟨svc₁, s.trace ++ [.queryWorkflows workflow_name]⟩) := by
  unfold get_or_create_graphlit_workflow pyTry ReqM.bind callSvc pyRaise ReqM.pure
  rcases hq : env.query_workflows workflow_name s.svc with ⟨rq, svc₁⟩
  rcases rq with ids | m | m
  · rcases ids with _ | ⟨wid, rest⟩
    · rcases hc : env.create_workflow workflow_name svc₁ with ⟨rc, svc₂⟩
      rcases rc with c | m | m <;> simp [hq, hc, strExc]
    · simp [hq]
  · simp [hq]
  · simp [hq, strExc]

/-- Any failure of the Workflow Provisioner surfaces as an
`HTTPException` with status 500. -/
theorem get_or_create_err (env : Env σ) (s : ReqState σ) (e : PyExc)
    (h : (get_or_create_graphlit_workflow env s).1 = .error e) :
    ∃ d, e = .http 500 d := by
  rw [get_or_create_run] at h
  split at h
  · simp at h
  · split at h
    · simp at h
    · simp at h; exact ⟨_, h.symm⟩
    · simp at h; exact ⟨_, h.symm⟩
  · simp at h; exact ⟨_, h.symm⟩
  · simp at h; exact ⟨_, h.symm⟩

/-- The Workflow Provisioner only performs workflow calls. -/
theorem get_or_create_tr (env : Env σ) (s : ReqState σ) :
    TraceAll NetCall.isWorkflowCallB s (get_or_create_graphlit_workflow env s).2 := by
  rw [get_or_create_run]
  split
  · exact ⟨[.queryWorkflows workflow_name], by simp [NetCall.isWorkflowCallB]⟩
  · split <;>
      exact ⟨[.queryWorkflows workflow_name, .createWorkflow workflow_name],
        by simp [NetCall.isWorkflowCallB]⟩
  · exact ⟨[.queryWorkflows workflow_name], by simp [NetCall.isWorkflowCallB]⟩
  · exact ⟨[.queryWorkflows workflow_name], by simp [NetCall.isWorkflowCallB]⟩

/-! ### `ingest_document_with_graphlit` -/

/-- Run of the Ingestion Adapter in URL mode (truthy `doc_uri`). -/
theorem ingest_run_uri (env : Env σ) (doc_name : String) (doc_uri : Option String)
    (file_content : Option (List Nat)) (mime_type : Option String) (s : ReqState σ)
    (hu : pyTruthyStr doc_uri = true) :
    ingest_document_with_graphlit env doc_name doc_uri file_content mime_type s =
      match get_or_create_graphlit_workflow env s with
      | (.ok workflow_id, s₁) =>
          match env.ingest_uri (doc_uri.getD ("")) workflow_id s₁.svc with
          | (.ok cid, svc₂) =>
              if pyTruthyStr cid then
                (.ok (cid.getD ("")),
                  ⟨svc₂, s₁.trace ++ [.ingestUri (doc_uri.getD ("")) workflow_id]⟩)
              else
                (.error (.http 500 ("Backend error during ingestion: " ++
                    strExc (.http 500 ("Graphlit ingestion failed to return a content ID.")))),
                  ⟨svc₂, s₁.trace ++ [.ingestUri (doc_uri.getD ("")) workflow_id]⟩)
          | (.gqlError m, svc₂) =>
              (.error (.http 500 ("Graphlit API error during ingestion: " ++ m)),
                ⟨svc₂, s₁.trace ++ [.ingestUri (doc_uri.getD ("")) workflow_id]⟩)
          | (.exn m, svc₂) =>
              (.error (.http 500 ("Backend error during ingestion: " ++ m)),
                ⟨svc₂, s₁.trace ++ [.ingestUri (doc_uri.getD ("")) workflow_id]⟩)
      | (.error e, s₁) => (.error e, s₁) := by
  unfold ingest_document_with_graphlit
  rw [ReqM.bind_apply]
  split
  · rename_i workflow_id s₁ heq
    rw [pyTry_apply, ReqM.bind_apply]
    simp only [hu, if_true]
    rw [ReqM.bind_apply, callSvc]
    rcases hi : env.ingest_uri (doc_uri.getD ("")) workflow_id s₁.svc with ⟨ri, svc₂⟩
    rcases ri with cid | m | m <;> simp only [hi, heq, ReqM.pure]
    · by_cases hc : pyTruthyStr cid = true <;> simp [hc, pyRaise, ReqM.pure, strExc]
    · simp [pyRaise]
    · simp [pyRaise, strExc]
  · rename_i e s₁ heq
    simp only [heq]

/-- Run of the Ingestion Adapter in file mode (falsy `doc_uri`, truthy
`file_content`). -/
theorem ingest_run_file (env : Env σ) (doc_name : String) (doc_uri : Option String)
    (file_content : Option (List Nat)) (mime_type : Option String) (s : ReqState σ)
    (hu : pyTruthyStr doc_uri = false) (hf : pyTruthyBytes file_content = true) :
    ingest_document_with_graphlit env doc_name doc_uri file_content mime_type s =
      match get_or_create_graphlit_workflow env s with
      | (.ok workflow_id, s₁) =>
          match env.ingest_encoded_file doc_name (base64_encode (file_content.getD []))
              mime_type workflow_id s₁.svc with
          | (.ok cid, svc₂) =>
              if pyTruthyStr cid then
                (.ok (cid.getD ("")),
                  ⟨svc₂, s₁.trace ++ [.ingestEncodedFile doc_name
                    (base64_encode (file_content.getD [])) mime_type workflow_id]⟩)
              else
                (.error (.http 500 ("Backend error during ingestion: " ++
                    strExc (.http 500 ("Graphlit ingestion failed to return a content ID.")))),
                  ⟨svc₂, s₁.trace ++ [.ingestEncodedFile doc_name
                    (base64_encode (file_content.getD [])) mime_type workflow_id]⟩)
          | (.gqlError m, svc₂) =>
              (.error (.http 500 ("Graphlit API error during ingestion: " ++ m)),
                ⟨svc₂, s₁.trace ++ [.ingestEncodedFile doc_name
                  (base64_encode (file_content.getD [])) mime_type workflow_id]⟩)
          | (.exn m, svc₂) =>
              (.error (.http 500 ("Backend error during ingestion: " ++ m)),
                ⟨svc₂, s₁.trace ++ [.ingestEncodedFile doc_name
                  (base64_encode (file_content.getD [])) mime_type workflow_id]⟩)
      | (.error e, s₁) => (.error e, s₁) := by
  unfold ingest_document_with_graphlit
  rw [ReqM.bind_apply]
  split
  · rename_i workflow_id s₁ heq
    rw [pyTry_apply, ReqM.bind_apply]
    simp only [hu, hf, Bool.false_eq_true, if_false, if_true]
    rw [ReqM.bind_apply, callSvc]
    rcases hi : env.ingest_encoded_file doc_name (base64_encode (file_content.getD []))
        mime_type workflow_id s₁.svc with ⟨ri, svc₂⟩
    rcases ri with cid | m | m <;> simp only [hi, heq, ReqM.pure]
    · by_cases hc : pyTruthyStr cid = true <;> simp [hc, pyRaise, ReqM.pure, strExc]
    · simp [pyRaise]
    · simp [pyRaise, strExc]
  · rename_i e s₁ heq
    simp only [heq]

/-- Run of the Ingestion Adapter with neither a URL nor (truthy) file
content: the workflow is still provisioned first; then the 400
validation error is raised inside the `try` block and re-raised by the
generic `except Exception` clause wrapped as a 500. -/
theorem ingest_run_nosource (env : Env σ) (doc_name : String) (doc_uri : Option String)
    (file_content : Option (List Nat)) (mime_type : Option String) (s : ReqState σ)
    (hu : pyTruthyStr doc_uri = false) (hf : pyTruthyBytes file_content = false) :
    ingest_document_with_graphlit env doc_name doc_uri file_content mime_type s =
      match get_or_create_graphlit_workflow env s with
      | (.ok _, s₁) =>
          (.error (.http 500 ("Backend error during ingestion: " ++
              strExc (.http 400 ("Either doc_url or uploaded file content is required for ingestion.")))),
            s₁)
      | (.error e, s₁) => (.error e, s₁) := by
  unfold ingest_document_with_graphlit
  rw [ReqM.bind_apply]
  split
  · rename_i workflow_id s₁ heq
    rw [pyTry_apply, ReqM.bind_apply]
    simp only [hu, hf, Bool.false_eq_true, if_false]
    simp [heq, pyRaise, ReqM.bind, strExc]
  · rename_i e s₁ heq
    simp only [heq]

/-- Any failure of the Ingestion Adapter surfaces as an `HTTPException`
with status 500. -/
theorem ingest_err (env : Env σ) (doc_name : String) (doc_uri : Option String)
    (file_content : Option (List Nat)) (mime_type : Option String) (s : ReqState σ) (e : PyExc)
    (h : (ingest_document_with_graphlit env doc_name doc_uri file_content mime_type s).1 =
      .error e) :
    ∃ d, e = .http 500 d := by
  unfold ingest_document_with_graphlit at h
  rw [ReqM.bind_apply] at h
  split at h
  · rename_i workflow_id s₁ heq
    rw [pyTry_apply] at h
    split at h
    · simp at h
    · rename_i eb s₂ hb
      rcases eb with ⟨c, d⟩ | m | m <;> simp [pyRaise, strExc] at h <;> exact ⟨_, h.symm⟩
  · rename_i eg s₁ heq
    simp at h
    subst h
    exact get_or_create_err env s eg (by rw [heq])

/-- In URL mode the Ingestion Adapter performs only workflow calls and
URI ingestion calls. -/
theorem ingest_tr_uri (env : Env σ) (doc_name : String) (doc_uri : Option String)
    (file_content : Option (List Nat)) (mime_type : Option String) (s : ReqState σ)
    (hu : pyTruthyStr doc_uri = true) :
    TraceAll (fun c => c.isWorkflowCallB || c.isUriIngestB) s
      (ingest_document_with_graphlit env doc_name doc_uri file_content mime_type s).2 := by
  rw [ingest_run_uri env doc_name doc_uri file_content mime_type s hu]
  split
  · rename_i workflow_id s₁ heq
    have h₁ : TraceAll (fun c => c.isWorkflowCallB || c.isUriIngestB) s s₁ := by
      have h₀ := get_or_create_tr env s
      rw [heq] at h₀
      exact h₀.mono (fun c hc => by simp [hc])
    split
    · split <;> exact h₁.trans (TraceAll.single _ _ (by simp [NetCall.isUriIngestB]) s₁ _)
    · exact h₁.trans (TraceAll.single _ _ (by simp [NetCall.isUriIngestB]) s₁ _)
    · exact h₁.trans (TraceAll.single _ _ (by simp [NetCall.isUriIngestB]) s₁ _)
  · rename_i e s₁ heq
    have h₀ := get_or_create_tr env s
    rw [heq] at h₀
    exact h₀.mono (fun c hc => by simp [hc])

/-- With a falsy `doc_uri` the Ingestion Adapter performs only workflow
calls and encoded-file ingestion calls (never URI ingestion). -/
theorem ingest_tr_nouri (env : Env σ) (doc_name : String) (doc_uri : Option String)
    (file_content : Option (List Nat)) (mime_type : Option String) (s : ReqState σ)
    (hu : pyTruthyStr doc_uri = false) :
    TraceAll (fun c => c.isWorkflowCallB || c.isFileIngestB) s
      (ingest_document_with_graphlit env doc_name doc_uri file_content mime_type s).2 := by
  by_cases hf : pyTruthyBytes file_content = true
  · rw [ingest_run_file env doc_name doc_uri file_content mime_type s hu hf]
    split
    · rename_i workflow_id s₁ heq
      have h₁ : TraceAll (fun c => c.isWorkflowCallB || c.isFileIngestB) s s₁ := by
        have h₀ := get_or_create_tr env s
        rw [heq] at h₀
        exact h₀.mono (fun c hc => by simp [hc])
      split
      · split <;> exact h₁.trans (TraceAll.single _ _ (by simp [NetCall.isFileIngestB]) s₁ _)
      · exact h₁.trans (TraceAll.single _ _ (by simp [NetCall.isFileIngestB]) s₁ _)
      · exact h₁.trans (TraceAll.single _ _ (by simp [NetCall.isFileIngestB]) s₁ _)
    · rename_i e s₁ heq
      have h₀ := get_or_create_tr env s
      rw [heq] at h₀
      exact h₀.mono (fun c hc => by simp [hc])
  · rw [ingest_run_nosource env doc_name doc_uri file_content mime_type s hu
      (Bool.not_eq_true _ ▸ hf)]
    split <;>
    · rename_i heq
      have h₀ := get_or_create_tr env s
      rw [heq] at h₀
      exact h₀.mono (fun c hc => by simp [hc])

/-! ### `get_content_markdown_from_graphlit` -/

/-- Full characterization of one run of the Content Retrieval Adapter:
it performs exactly one `getContent` call. -/
theorem get_content_run (env : Env σ) (content_id : String) (s : ReqState σ) :
    get_content_markdown_from_graphlit env content_id s =
      (match (env.get_content content_id s.svc).1 with
        | .ok content_details =>
            match mdOf content_details with
            | some md => .ok md
            | none =>
                .error (.http 500 ("Backend error retrieving content: " ++
                  strExc (.http 500 ("Failed to retrieve markdown content for ID " ++ content_id ++
                    " from Graphlit. Content might not be processed yet, or is empty."))))
        | .gqlError m => .error (.http 500 ("Graphlit API error retrieving content: " ++ m))
        | .exn m => .error (.http 500 ("Backend error retrieving content: " ++ m)),
       ⟨(env.get_content content_id s.svc).2, s.trace ++ [.getContent content_id]⟩) := by
  unfold get_content_markdown_from_graphlit
  rw [pyTry_apply, ReqM.bind_apply, callSvc]
  rcases hg : env.get_content content_id s.svc with ⟨rg, svc'⟩
  rcases rg with cd | m | m <;> simp only [hg, ReqM.pure]
  · rcases hm : mdOf cd with _ | md <;> simp [hm, pyRaise, ReqM.pure, strExc]
  · simp [pyRaise]
  · simp [pyRaise, strExc]

/-- Any failure of the Content Retrieval Adapter surfaces as an
`HTTPException` with status 500. -/
theorem get_content_err (env : Env σ) (content_id : String) (s : ReqState σ) (e : PyExc)
    (h : (get_content_markdown_from_graphlit env content_id s).1 = .error e) :
    ∃ d, e = .http 500 d := by
  rw [get_content_run] at h
  simp only at h
  split at h
  · split at h
    · simp at h
    · simp at h; exact ⟨_, h.symm⟩
  · simp at h; exact ⟨_, h.symm⟩
  · simp at h; exact ⟨_, h.symm⟩

/-- A successful retrieval returns exactly the markdown reported by the
service for the requested content id. -/
theorem get_content_ok (env : Env σ) (content_id : String) (s : ReqState σ) (md : String)
    (h : (get_content_markdown_from_graphlit env content_id s).1 = .ok md) :
    ∃ cd, (env.get_content content_id s.svc).1 = .ok cd ∧ mdOf cd = some md := by
  rw [get_content_run] at h
  simp only at h
  split at h
  · rename_i cd hcd
    split at h
    · rename_i md' hmd
      simp at h
      exact ⟨cd, hcd, h ▸ hmd⟩
    · simp at h
  · simp at h
  · simp at h

/-! ### `generate_sdk_usage_example` -/

/-- Full characterization of the Usage Example Stage: it performs
exactly one agent call, never raises, and on any agent failure returns
the fixed fallback string. -/
theorem usage_example_run (env : Env σ) (sdk_code sdk_name base_url : String) (s : ReqState σ) :
    generate_sdk_usage_example env sdk_code sdk_name base_url s =
      (match (env.usage_agent_arun ⟨sdk_code, sdk_name, base_url⟩ s.svc).1 with
        | .ok response => .ok (pyStrip response)
        | _ => .ok usage_example_fallback,
       ⟨(env.usage_agent_arun ⟨sdk_code, sdk_name, base_url⟩ s.svc).2,
        s.trace ++ [.usageArun ⟨sdk_code, sdk_name, base_url⟩]⟩) := by
  unfold generate_sdk_usage_example
  rw [pyTry_apply, ReqM.bind_apply, callSvc]
  rcases hg : env.usage_agent_arun ⟨sdk_code, sdk_name, base_url⟩ s.svc with ⟨rg, svc'⟩
  rcases rg with v | m | m <;> simp [hg, ReqM.pure]

/-! ### The endpoint body -/

/-- Any failure of the source-selection/ingestion step surfaces as an
`HTTPException` with status 500. -/
theorem select_and_ingest_err (env : Env σ) (guess_type : String → Option String)
    (sdk_name : String) (doc_url : Option String) (doc_file : Option UploadFile)
    (s : ReqState σ) (e : PyExc)
    (h : (select_and_ingest env guess_type sdk_name doc_url doc_file s).1 = .error e) :
    ∃ d, e = .http 500 d := by
  unfold select_and_ingest at h
  by_cases hdu : pyTruthyStr doc_url = true
  · simp only [hdu, if_true] at h
    rw [ReqM.bind_apply] at h
    split at h
    · rename_i cid s₁ hing
      simp [ReqM.pure] at h
    · rename_i e₁ s₁ hing
      simp at h
      subst h
      exact ingest_err env sdk_name doc_url none none s e₁ (by rw [hing])
  · simp only [hdu, Bool.false_eq_true, if_false] at h
    rcases doc_file with _ | f
    · simp [ReqM.pure] at h
    · simp only [] at h
      rw [ReqM.bind_apply] at h
      split at h
      · rename_i cid s₁ hing
        simp [ReqM.pure] at h
      · rename_i e₁ s₁ hing
        simp at h
        subst h
        exact ingest_err env f.filename none (some f.content)
          (some (resolve_mime_type guess_type f.content_type f.filename)) s e₁ (by rw [hing])

/-- In URL mode the source-selection step performs only workflow and
URI ingestion calls. -/
theorem select_and_ingest_tr_uri (env : Env σ) (guess_type : String → Option String)
    (sdk_name : String) (doc_url : Option String) (doc_file : Option UploadFile)
    (s : ReqState σ) (hdu : pyTruthyStr doc_url = true) :
    TraceAll (fun c => c.isWorkflowCallB || c.isUriIngestB) s
      (select_and_ingest env guess_type sdk_name doc_url doc_file s).2 := by
  unfold select_and_ingest
  simp only [hdu, if_true]
  rw [ReqM.bind_apply]
  split
  · rename_i cid s₁ hing
    have h₀ := ingest_tr_uri env sdk_name doc_url none none s hdu
    rw [hing] at h₀
    simpa [ReqM.pure] using h₀
  · rename_i e₁ s₁ hing
    have h₀ := ingest_tr_uri env sdk_name doc_url none none s hdu
    rw [hing] at h₀
    exact h₀

/-- With a falsy `doc_url` the source-selection step performs only
workflow and encoded-file ingestion calls (never URI ingestion). -/
theorem select_and_ingest_tr_file (env : Env σ) (guess_type : String → Option String)
    (sdk_name : String) (doc_url : Option String) (doc_file : Option UploadFile)
    (s : ReqState σ) (hdu : pyTruthyStr doc_url = false) :
    TraceAll (fun c => c.isWorkflowCallB || c.isFileIngestB) s
      (select_and_ingest env guess_type sdk_name doc_url doc_file s).2 := by
  unfold select_and_ingest
  simp only [hdu, Bool.false_eq_true, if_false]
  rcases doc_file with _ | f
  · exact TraceAll.rfl _ s
  · simp only []
    rw [ReqM.bind_apply]
    split
    · rename_i cid s₁ hing
      have h₀ := ingest_tr_nouri env f.filename none (some f.content)
        (some (resolve_mime_type guess_type f.content_type f.filename)) s rfl
      rw [hing] at h₀
      simpa [ReqM.pure] using h₀
    · rename_i e₁ s₁ hing
      have h₀ := ingest_tr_nouri env f.filename none (some f.content)
        (some (resolve_mime_type guess_type f.content_type f.filename)) s rfl
      rw [hing] at h₀
      exact h₀

/-- The Content Retrieval Adapter records exactly one `getContent`
call per invocation. -/
theorem get_content_trace (env : Env σ) (content_id : String) (s : ReqState σ) :
    (get_content_markdown_from_graphlit env content_id s).2.trace =
      s.trace ++ [.getContent content_id] := by
  rw [get_content_run]

/-- Any failure of the post-ingestion processing is an `HTTPException`
with status 500, a `GraphQLClientError`, or another exception — never
an `HTTPException` with a status other than 500. -/
theorem process_err (env : Env σ) (sn ver bu : String) (cid : Option String)
    (s : ReqState σ) (e : PyExc)
    (h : (process_ingested_content env sn ver bu cid s).1 = .error e) :
    (∃ d, e = .http 500 d) ∨ (∃ m, e = .gql m) ∨ (∃ m, e = .other m) := by
  unfold process_ingested_content at h
  by_cases hc : pyTruthyStr cid = true
  · simp only [hc, Bool.not_true, Bool.false_eq_true, if_false] at h
    rw [ReqM.bind_apply] at h
    split at h
    · rename_i raw s₁ hgc
      by_cases hr : pyStrip raw = ""
      · simp only [if_pos hr] at h
        simp [pyRaise] at h
        exact Or.inl ⟨_, h.symm⟩
      · simp only [if_neg hr] at h
        rw [ReqM.bind_apply, callSvc] at h
        rcases ht : env.team_arun ⟨raw, sn, ver, bu⟩ s₁.svc with ⟨rt, svc₂⟩
        rcases rt with code | m | m <;> simp only [ht] at h
        · by_cases hq : sdk_code_rejected code = true
          · simp only [if_pos hq] at h
            simp [pyRaise] at h
            exact Or.inl ⟨_, h.symm⟩
          · simp only [if_neg hq] at h
            simp [ReqM.pure] at h
        · simp at h
          exact Or.inr (Or.inl ⟨_, h.symm⟩)
        · simp at h
          exact Or.inr (Or.inr ⟨_, h.symm⟩)
    · rename_i e₁ s₁ hgc
      simp at h
      subst h
      exact Or.inl (get_content_err env (cid.getD ("")) s e₁ (by rw [hgc]))
  · simp only [hc] at h
    simp [pyRaise] at h
    exact Or.inl ⟨_, h.symm⟩

/-- A successful post-ingestion processing returns code that passed the
plausibility check, and that code is exactly the output of one team
invocation. -/
theorem process_ok (env : Env σ) (sn ver bu : String) (cid : Option String)
    (s : ReqState σ) (code : String) (s' : ReqState σ)
    (h : process_ingested_content env sn ver bu cid s = (.ok code, s')) :
    sdk_code_rejected code = false ∧
      ∃ inp svcmid, (env.team_arun inp svcmid).1 = .ok code := by
  unfold process_ingested_content at h
  by_cases hc : pyTruthyStr cid = true
  · simp only [hc, Bool.not_true, Bool.false_eq_true, if_false] at h
    rw [ReqM.bind_apply] at h
    split at h
    · rename_i raw s₁ hgc
      by_cases hr : pyStrip raw = ""
      · simp only [if_pos hr] at h
        simp [pyRaise] at h
      · simp only [if_neg hr] at h
        rw [ReqM.bind_apply, callSvc] at h
        rcases ht : env.team_arun ⟨raw, sn, ver, bu⟩ s₁.svc with ⟨rt, svc₂⟩
        rcases rt with c | m | m <;> simp only [ht] at h
        · by_cases hq : sdk_code_rejected c = true
          · simp only [if_pos hq] at h
            simp [pyRaise] at h
          · simp only [if_neg hq] at h
            simp [ReqM.pure] at h
            obtain ⟨h1, h2⟩ := h
            subst h1
            exact ⟨Bool.not_eq_true _ ▸ hq, ⟨raw, sn, ver, bu⟩, s₁.svc, by rw [ht]⟩
        · simp at h
        · simp at h
    · rename_i e₁ s₁ hgc
      simp at h
  · simp only [hc] at h
    simp [pyRaise] at h

/-- The post-ingestion processing performs only content retrieval and
model calls. -/
theorem process_tr (env : Env σ) (sn ver bu : String) (cid : Option String) (s : ReqState σ) :
    TraceAll (fun c => c.isGetContentB || c.isModelCallB) s
      (process_ingested_content env sn ver bu cid s).2 := by
  unfold process_ingested_content
  by_cases hc : pyTruthyStr cid = true
  · simp only [hc, Bool.not_true, Bool.false_eq_true, if_false]
    rw [ReqM.bind_apply]
    split
    · rename_i raw s₁ hgc
      have h₁ : TraceAll (fun c => c.isGetContentB || c.isModelCallB) s s₁ := by
        refine ⟨[.getContent (cid.getD (""))], ?_, by simp [NetCall.isGetContentB]⟩
        have h₀ := get_content_trace env (cid.getD ("")) s
        rw [hgc] at h₀
        exact h₀
      by_cases hr : pyStrip raw = ""
      · simp only [if_pos hr]
        exact h₁
      · simp only [if_neg hr]
        rw [ReqM.bind_apply, callSvc]
        rcases ht : env.team_arun ⟨raw, sn, ver, bu⟩ s₁.svc with ⟨rt, svc₂⟩
        rcases rt with c | m | m <;> simp only [ht]
        · by_cases hq : sdk_code_rejected c = true
          · simp only [if_pos hq]
            exact h₁.trans (TraceAll.single _ _ (by simp [NetCall.isModelCallB]) s₁ _)
          · simp only [if_neg hq]
            exact h₁.trans (TraceAll.single _ _ (by simp [NetCall.isModelCallB]) s₁ _)
        · exact h₁.trans (TraceAll.single _ _ (by simp [NetCall.isModelCallB]) s₁ _)
        · exact h₁.trans (TraceAll.single _ _ (by simp [NetCall.isModelCallB]) s₁ _)
    · rename_i e₁ s₁ hgc
      refine ⟨[.getContent (cid.getD (""))], ?_, by simp [NetCall.isGetContentB]⟩
      have h₀ := get_content_trace env (cid.getD ("")) s
      rw [hgc] at h₀
      exact h₀
  · simp only [hc]
    exact TraceAll.rfl _ s

/-- An environment whose content retrieval only ever yields absent,
empty, or blank (whitespace-only) markdown. -/
def BlankContent (env : Env σ) : Prop :=
  ∀ id t cd, (env.get_content id t).1 = .ok cd →
    mdOf cd = none ∨ ∃ md, mdOf cd = some md ∧ pyStrip md = ""

/-- Under blank content the post-ingestion processing always fails,
makes at most one content retrieval call, and performs no model call
(in particular it never retries the retrieval). -/
theorem process_blank (env : Env σ) (sn ver bu : String) (cid : Option String)
    (s : ReqState σ) (hb : BlankContent env) :
    (∃ e, (process_ingested_content env sn ver bu cid s).1 = .error e) ∧
    ∃ l, (process_ingested_content env sn ver bu cid s).2.trace = s.trace ++ l ∧
      l.all NetCall.isGetContentB = true ∧ l.length ≤ 1 := by
  unfold process_ingested_content
  by_cases hc : pyTruthyStr cid = true
  · simp only [hc, Bool.not_true, Bool.false_eq_true, if_false]
    rw [ReqM.bind_apply]
    split
    · rename_i raw s₁ hgc
      obtain ⟨cd, hcd, hmd⟩ := get_content_ok env (cid.getD ("")) s raw (by rw [hgc])
      rcases hb _ _ _ hcd with hnone | ⟨md, hsome, hblankmd⟩
      · rw [hnone] at hmd
        cases hmd
      · rw [hsome] at hmd
        injection hmd with hmd'
        subst hmd'
        simp only [if_pos hblankmd]
        refine ⟨⟨_, rfl⟩, ⟨[.getContent (cid.getD (""))], ?_, by simp [NetCall.isGetContentB], by simp⟩⟩
        have h₀ := get_content_trace env (cid.getD ("")) s
        rw [hgc] at h₀
        exact h₀
    · rename_i e₁ s₁ hgc
      refine ⟨⟨e₁, rfl⟩, ⟨[.getContent (cid.getD (""))], ?_, by simp [NetCall.isGetContentB], by simp⟩⟩
      have h₀ := get_content_trace env (cid.getD ("")) s
      rw [hgc] at h₀
      exact h₀
  · have hcf : pyTruthyStr cid = false := by simpa using hc
    simp only [hcf, Bool.not_false, if_true, pyRaise]
    exact ⟨⟨_, rfl⟩, ⟨[], by simp, rfl, by simp⟩⟩

/-- Any failure of the whole code-acquisition phase is a 500
`HTTPException`, a `GraphQLClientError`, or another exception. -/
theorem acquire_err (env : Env σ) (guess_type : String → Option String)
    (sn ver bu : String) (du : Option String) (df : Option UploadFile)
    (s : ReqState σ) (e : PyExc)
    (h : (acquire_sdk_code env guess_type sn ver bu du df s).1 = .error e) :
    (∃ d, e = .http 500 d) ∨ (∃ m, e = .gql m) ∨ (∃ m, e = .other m) := by
  unfold acquire_sdk_code at h
  rw [ReqM.bind_apply] at h
  split at h
  · rename_i cid s₁ hsel
    exact process_err env sn ver bu cid s₁ e h
  · rename_i e₁ s₁ hsel
    simp at h
    subst h
    exact Or.inl (select_and_ingest_err env guess_type sn du df s e₁ (by rw [hsel]))

/-- A successful code acquisition returns code that passed the
plausibility check, produced by one team invocation. -/
theorem acquire_ok (env : Env σ) (guess_type : String → Option String)
    (sn ver bu : String) (du : Option String) (df : Option UploadFile)
    (s : ReqState σ) (code : String) (s' : ReqState σ)
    (h : acquire_sdk_code env guess_type sn ver bu du df s = (.ok code, s')) :
    sdk_code_rejected code = false ∧
      ∃ inp svcmid, (env.team_arun inp svcmid).1 = .ok code := by
  unfold acquire_sdk_code at h
  rw [ReqM.bind_apply] at h
  split at h
  · rename_i cid s₁ hsel
    exact process_ok env sn ver bu cid s₁ code s' h
  · simp at h

/-- In URL mode the code acquisition never ingests an uploaded file. -/
theorem acquire_tr_uri (env : Env σ) (guess_type : String → Option String)
    (sn ver bu : String) (du : Option String) (df : Option UploadFile)
    (s : ReqState σ) (hdu : pyTruthyStr du = true) :
    TraceAll (fun c => !c.isFileIngestB) s
      (acquire_sdk_code env guess_type sn ver bu du df s).2 := by
  unfold acquire_sdk_code
  rw [ReqM.bind_apply]
  have h₀ := select_and_ingest_tr_uri env guess_type sn du df s hdu
  split
  · rename_i cid s₁ hsel
    rw [hsel] at h₀
    refine (h₀.mono ?_).trans ((process_tr env sn ver bu cid s₁).mono ?_)
    · intro c hc
      cases c <;> simp_all [NetCall.isWorkflowCallB, NetCall.isUriIngestB, NetCall.isFileIngestB]
    · intro c hc
      cases c <;> simp_all [NetCall.isGetContentB, NetCall.isModelCallB, NetCall.isFileIngestB]
  · rename_i e₁ s₁ hsel
    rw [hsel] at h₀
    refine h₀.mono ?_
    intro c hc
    cases c <;> simp_all [NetCall.isWorkflowCallB, NetCall.isUriIngestB, NetCall.isFileIngestB]

/-- With a falsy `doc_url` the code acquisition never ingests by URI. -/
theorem acquire_tr_file (env : Env σ) (guess_type : String → Option String)
    (sn ver bu : String) (du : Option String) (df : Option UploadFile)
    (s : ReqState σ) (hdu : pyTruthyStr du = false) :
    TraceAll (fun c => !c.isUriIngestB) s
      (acquire_sdk_code env guess_type sn ver bu du df s).2 := by
  unfold acquire_sdk_code
  rw [ReqM.bind_apply]
  have h₀ := select_and_ingest_tr_file env guess_type sn du df s hdu
  split
  · rename_i cid s₁ hsel
    rw [hsel] at h₀
    refine (h₀.mono ?_).trans ((process_tr env sn ver bu cid s₁).mono ?_)
    · intro c hc
      cases c <;> simp_all [NetCall.isWorkflowCallB, NetCall.isFileIngestB, NetCall.isUriIngestB]
    · intro c hc
      cases c <;> simp_all [NetCall.isGetContentB, NetCall.isModelCallB, NetCall.isUriIngestB]
  · rename_i e₁ s₁ hsel
    rw [hsel] at h₀
    refine h₀.mono ?_
    intro c hc
    cases c <;> simp_all [NetCall.isWorkflowCallB, NetCall.isFileIngestB, NetCall.isUriIngestB]

/-- The source-selection step performs no model call and no content
retrieval call. -/
theorem select_nomodel (env : Env σ) (guess_type : String → Option String)
    (sdk_name : String) (du : Option String) (df : Option UploadFile) (s : ReqState σ) :
    TraceAll (fun c => !c.isModelCallB && !c.isGetContentB) s
      (select_and_ingest env guess_type sdk_name du df s).2 := by
  by_cases hdu : pyTruthyStr du = true
  · refine (select_and_ingest_tr_uri env guess_type sdk_name du df s hdu).mono ?_
    intro c hc
    cases c <;> simp_all [NetCall.isWorkflowCallB, NetCall.isUriIngestB,
      NetCall.isModelCallB, NetCall.isGetContentB]
  · refine (select_and_ingest_tr_file env guess_type sdk_name du df s (by simpa using hdu)).mono ?_
    intro c hc
    cases c <;> simp_all [NetCall.isWorkflowCallB, NetCall.isFileIngestB,
      NetCall.isModelCallB, NetCall.isGetContentB]

/-- Under blank content the code acquisition always fails, performs no
model call, and retrieves content at most once. -/
theorem acquire_blank (env : Env σ) (guess_type : String → Option String)
    (sn ver bu : String) (du : Option String) (df : Option UploadFile)
    (s : ReqState σ) (hb : BlankContent env) :
    (∃ e, (acquire_sdk_code env guess_type sn ver bu du df s).1 = .error e) ∧
    ∃ l, (acquire_sdk_code env guess_type sn ver bu du df s).2.trace = s.trace ++ l ∧
      l.all (fun c => !c.isModelCallB) = true ∧
      (l.filter NetCall.isGetContentB).length ≤ 1 := by
  unfold acquire_sdk_code
  rw [ReqM.bind_apply]
  have hsel := select_nomodel env guess_type sn du df s
  split
  · rename_i cid s₁ hsel_eq
    rw [hsel_eq] at hsel
    obtain ⟨l₁, hl₁, ha₁⟩ := hsel
    obtain ⟨⟨e, he⟩, ⟨l₂, hl₂, ha₂, hlen₂⟩⟩ := process_blank env sn ver bu cid s₁ hb
    refine ⟨⟨e, he⟩, ⟨l₁ ++ l₂, ?_, ?_, ?_⟩⟩
    · rw [hl₂]
      have : s₁.trace = s.trace ++ l₁ := hl₁
      rw [this, List.append_assoc]
    · simp only [List.all_append, Bool.and_eq_true]
      refine ⟨?_, ?_⟩
      · simp only [List.all_eq_true] at ha₁ ⊢
        intro c hc
        have := ha₁ c hc
        simp_all
      · simp only [List.all_eq_true] at ha₂ ⊢
        intro c hc
        have := ha₂ c hc
        cases c <;> simp_all [NetCall.isGetContentB, NetCall.isModelCallB]
    · rw [List.filter_append, List.length_append]
      have h0 : l₁.filter NetCall.isGetContentB = [] := by
        rw [List.filter_eq_nil_iff]
        intro c hc
        have := (List.all_eq_true.mp ha₁) c hc
        simp_all
      have h1 : (l₂.filter NetCall.isGetContentB).length ≤ l₂.length :=
        List.length_filter_le _ _
      have h2 : (l₁.filter NetCall.isGetContentB).length = 0 := by simp [h0]
      omega
  · rename_i e₁ s₁ hsel_eq
    rw [hsel_eq] at hsel
    obtain ⟨l₁, hl₁, ha₁⟩ := hsel
    refine ⟨⟨e₁, rfl⟩, ⟨l₁, hl₁, ?_, ?_⟩⟩
    · simp only [List.all_eq_true] at ha₁ ⊢
      intro c hc
      have := ha₁ c hc
      simp_all
    · have h0 : l₁.filter NetCall.isGetContentB = [] := by
        rw [List.filter_eq_nil_iff]
        intro c hc
        have := (List.all_eq_true.mp ha₁) c hc
        simp_all
      simp [h0]

/-- Any failure of the endpoint-body is a 500 `HTTPException`, a
`GraphQLClientError`, or another exception. -/
theorem body_err (env : Env σ) (guess_type : String → Option String)
    (sn ver bu : String) (du : Option String) (df : Option UploadFile)
    (s : ReqState σ) (e : PyExc)
    (h : (generate_sdk_body env guess_type sn ver bu du df s).1 = .error e) :
    (∃ d, e = .http 500 d) ∨ (∃ m, e = .gql m) ∨ (∃ m, e = .other m) := by
  unfold generate_sdk_body at h
  rw [ReqM.bind_apply] at h
  split at h
  · rename_i code s₁ hacq
    rw [ReqM.bind_apply] at h
    split at h
    · rename_i u s₃ hus
      simp [ReqM.pure] at h
    · rename_i e₁ s₃ hus
      have h₂ := usage_example_run env code sn bu s₁
      rw [h₂] at hus
      have h₄ := congrArg Prod.fst hus
      rcases ho : (env.usage_agent_arun ⟨code, sn, bu⟩ s₁.svc).1 with v | m | m <;>
        rw [ho] at h₄ <;> simp at h₄
  · rename_i e₁ s₁ hacq
    simp at h
    subst h
    exact acquire_err env guess_type sn ver bu du df s e₁ (by rw [hacq])

/-- A successful body run: the response is assembled from the acquired
code, the usage example (stripped agent output or the fallback), and
the fixed success message template. -/
theorem body_ok (env : Env σ) (guess_type : String → Option String)
    (sn ver bu : String) (du : Option String) (df : Option UploadFile)
    (s : ReqState σ) (r : GenerateSdkResponse) (s₂ : ReqState σ)
    (h : generate_sdk_body env guess_type sn ver bu du df s = (.ok r, s₂)) :
    ∃ code s₁, acquire_sdk_code env guess_type sn ver bu du df s = (.ok code, s₁) ∧
      r.sdk_code = code ∧ r.message = success_message sn ∧
      ((∃ v, r.sdk_usage_example = pyStrip v) ∨
        r.sdk_usage_example = usage_example_fallback) := by
  unfold generate_sdk_body at h
  rw [ReqM.bind_apply] at h
  split at h
  · rename_i code s₁ hacq
    rw [ReqM.bind_apply] at h
    split at h
    · rename_i u s₃ hus
      simp [ReqM.pure] at h
      obtain ⟨h1, h2⟩ := h
      refine ⟨code, s₁, hacq, ?_, ?_, ?_⟩
      · rw [← h1]
      · rw [← h1]
      · have h₂ := usage_example_run env code sn bu s₁
        rw [h₂] at hus
        have h₄ := congrArg Prod.fst hus
        rcases ho : (env.usage_agent_arun ⟨code, sn, bu⟩ s₁.svc).1 with v | m | m <;>
          rw [ho] at h₄ <;> simp at h₄
        · exact Or.inl ⟨v, by rw [← h1, ← h₄]⟩
        · exact Or.inr (by rw [← h1, ← h₄])
        · exact Or.inr (by rw [← h1, ← h₄])
    · rename_i e₁ s₃ hus
      simp at h
  · rename_i e₁ s₁ hacq
    simp at h

/-- The endpoint body adds only the acquisition calls and one usage
agent call; any per-call predicate preserved by the acquisition and
satisfied by usage calls is preserved by the body. -/
theorem body_tr (env : Env σ) (guess_type : String → Option String)
    (sn ver bu : String) (du : Option String) (df : Option UploadFile)
    (s : ReqState σ) (p : NetCall → Bool)
    (hacq : TraceAll p s (acquire_sdk_code env guess_type sn ver bu du df s).2)
    (hp : ∀ pr, p (.usageArun pr) = true) :
    TraceAll p s (generate_sdk_body env guess_type sn ver bu du df s).2 := by
  unfold generate_sdk_body
  rw [ReqM.bind_apply]
  split
  · rename_i code s₁ hacq_eq
    rw [hacq_eq] at hacq
    rw [ReqM.bind_apply]
    split
    · rename_i u s₃ hus
      have h₂ := usage_example_run env code sn bu s₁
      rw [h₂] at hus
      have h₅ : s₃ = (⟨(env.usage_agent_arun ⟨code, sn, bu⟩ s₁.svc).2,
          s₁.trace ++ [.usageArun ⟨code, sn, bu⟩]⟩ : ReqState σ) :=
        (congrArg Prod.snd hus).symm
      subst h₅
      exact hacq.trans (TraceAll.single p _ (hp _) s₁ _)
    · rename_i e₁ s₃ hus
      have h₂ := usage_example_run env code sn bu s₁
      rw [h₂] at hus
      have h₅ : s₃ = (⟨(env.usage_agent_arun ⟨code, sn, bu⟩ s₁.svc).2,
          s₁.trace ++ [.usageArun ⟨code, sn, bu⟩]⟩ : ReqState σ) :=
        (congrArg Prod.snd hus).symm
      subst h₅
      exact hacq.trans (TraceAll.single p _ (hp _) s₁ _)
  · rename_i e₁ s₁ hacq_eq
    rw [hacq_eq] at hacq
    exact hacq

theorem body_blank (env : Env σ) (guess_type : String → Option String)
    (sn ver bu : String) (du : Option String) (df : Option UploadFile)
    (s : ReqState σ) (hb : BlankContent env) :
    (∃ e, (generate_sdk_body env guess_type sn ver bu du df s).1 = .error e) ∧
    ∃ l, (generate_sdk_body env guess_type sn ver bu du df s).2.trace = s.trace ++ l ∧
      l.all (fun c => !c.isModelCallB) = true ∧
      (l.filter NetCall.isGetContentB).length ≤ 1 := by
  unfold generate_sdk_body
  rw [ReqM.bind_apply]
  obtain ⟨⟨e, he⟩, ⟨l, hl, ha, hlen⟩⟩ := acquire_blank env guess_type sn ver bu du df s hb
  split
  · rename_i code s₁ hacq
    rw [hacq] at he
    simp at he
  · rename_i e₁ s₁ hacq
    rw [hacq] at hl
    exact ⟨⟨e₁, rfl⟩, ⟨l, hl, ha, hlen⟩⟩

/-- A successful endpoint run decomposes into a successful acquisition
and the assembled response (fixed message template; usage example is
stripped agent output or the fallback). -/
theorem endpoint_ok (env : Env σ) (guess_type : String → Option String) (ck : Bool)
    (sn ver bu : String) (du : Option String) (df : Option UploadFile)
    (s : ReqState σ) (r : GenerateSdkResponse)
    (h : (generate_sdk_endpoint env guess_type ck sn ver bu du df s).1 = .ok r) :
    ∃ code s₁, acquire_sdk_code env guess_type sn ver bu du df s = (.ok code, s₁) ∧
      r.sdk_code = code ∧ r.message = success_message sn ∧
      ((∃ v, r.sdk_usage_example = pyStrip v) ∨
        r.sdk_usage_example = usage_example_fallback) := by
  unfold generate_sdk_endpoint at h
  by_cases hv : (!(pyTruthyStr du) && df.isNone) = true
  · simp only [hv, if_true] at h
    simp [pyRaise] at h
  · have hv' : (!(pyTruthyStr du) && df.isNone) = false := Bool.not_eq_true _ ▸ hv
    simp only [hv', Bool.false_eq_true, if_false] at h
    by_cases hck : (!ck) = true
    · simp only [hck, if_true] at h
      simp [pyRaise] at h
    · have hck' : (!ck) = false := Bool.not_eq_true _ ▸ hck
      simp only [hck', Bool.false_eq_true, if_false] at h
      rw [pyTry_apply] at h
      split at h
      · rename_i r' s₂ hbody
        simp at h
        subst h
        exact body_ok env guess_type sn ver bu du df s r' s₂ hbody
      · rename_i e₁ s₂ hbody
        rcases e₁ with ⟨c, d⟩ | m | m <;> simp [pyRaise] at h

/-- Every endpoint failure is an `HTTPException`; the status is 400
exactly for the missing-source validation failure and 500 for every
other error class. -/
theorem endpoint_err (env : Env σ) (guess_type : String → Option String) (ck : Bool)
    (sn ver bu : String) (du : Option String) (df : Option UploadFile)
    (s : ReqState σ) (e : PyExc)
    (h : (generate_sdk_endpoint env guess_type ck sn ver bu du df s).1 = .error e) :
    (e = .http 400 missing_source_detail ∧ pyTruthyStr du = false ∧ df = none) ∨
    (∃ d, e = .http 500 d) := by
  unfold generate_sdk_endpoint at h
  by_cases hv : (!(pyTruthyStr du) && df.isNone) = true
  · simp only [hv, if_true] at h
    simp [pyRaise] at h
    left
    have hparts := hv
    simp only [Bool.and_eq_true, Bool.not_eq_true', Option.isNone_iff_eq_none] at hparts
    exact ⟨h.symm, hparts.1, hparts.2⟩
  · have hv' : (!(pyTruthyStr du) && df.isNone) = false := Bool.not_eq_true _ ▸ hv
    simp only [hv', Bool.false_eq_true, if_false] at h
    by_cases hck : (!ck) = true
    · simp only [hck, if_true] at h
      simp [pyRaise] at h
      right
      exact ⟨_, h.symm⟩
    · have hck' : (!ck) = false := Bool.not_eq_true _ ▸ hck
      simp only [hck', Bool.false_eq_true, if_false] at h
      rw [pyTry_apply] at h
      split at h
      · simp at h
      · rename_i e₁ s₂ hbody
        have hb2 := body_err env guess_type sn ver bu du df s e₁ (by rw [hbody])
        rcases he₁ : e₁ with ⟨c, d⟩ | m | m
        · simp [pyRaise, he₁] at h
          rw [he₁] at hb2
          rcases hb2 with ⟨d', hd⟩ | ⟨m', hm⟩ | ⟨m', hm⟩
          · injection hd with hc hd2
            right
            exact ⟨d, by rw [← h, hc]⟩
          · cases hm
          · cases hm
        · simp [pyRaise, he₁] at h
          right
          exact ⟨_, h.symm⟩
        · simp [pyRaise, he₁] at h
          right
          exact ⟨_, h.symm⟩

/-- The endpoint wrapper adds no network calls of its own: any per-call
trace predicate established for the body holds for the endpoint. -/
theorem endpoint_tr (env : Env σ) (guess_type : String → Option String) (ck : Bool)
    (sn ver bu : String) (du : Option String) (df : Option UploadFile)
    (s : ReqState σ) (p : NetCall → Bool)
    (hbody : TraceAll p s (generate_sdk_body env guess_type sn ver bu du df s).2) :
    TraceAll p s (generate_sdk_endpoint env guess_type ck sn ver bu du df s).2 := by
  unfold generate_sdk_endpoint
  by_cases hv : (!(pyTruthyStr du) && df.isNone) = true
  · simp only [hv, if_true, pyRaise]
    exact TraceAll.rfl p s
  · have hv' : (!(pyTruthyStr du) && df.isNone) = false := Bool.not_eq_true _ ▸ hv
    simp only [hv', Bool.false_eq_true, if_false]
    by_cases hck : (!ck) = true
    · simp only [hck, if_true, pyRaise]
      exact TraceAll.rfl p s
    · have hck' : (!ck) = false := Bool.not_eq_true _ ▸ hck
      simp only [hck', Bool.false_eq_true, if_false]
      rw [pyTry_apply]
      split
      · rename_i r s₂ hbody_eq
        rw [hbody_eq] at hbody
        exact hbody
      · rename_i e₁ s₂ hbody_eq
        rw [hbody_eq] at hbody
        rcases e₁ with ⟨c, d⟩ | m | m <;> simp only [pyRaise] <;> exact hbody

/-- Under blank content every request fails, no model is invoked, and
content is retrieved at most once. -/
theorem endpoint_blank (env : Env σ) (guess_type : String → Option String) (ck : Bool)
    (sn ver bu : String) (du : Option String) (df : Option UploadFile)
    (s : ReqState σ) (hb : BlankContent env) :
    (∃ e, (generate_sdk_endpoint env guess_type ck sn ver bu du df s).1 = .error e) ∧
    ∃ l, (generate_sdk_endpoint env guess_type ck sn ver bu du df s).2.trace = s.trace ++ l ∧
      l.all (fun c => !c.isModelCallB) = true ∧
      (l.filter NetCall.isGetContentB).length ≤ 1 := by
  unfold generate_sdk_endpoint
  by_cases hv : (!(pyTruthyStr du) && df.isNone) = true
  · simp only [hv, if_true, pyRaise]
    exact ⟨⟨_, rfl⟩, ⟨[], by simp, rfl, by simp⟩⟩
  · have hv' : (!(pyTruthyStr du) && df.isNone) = false := Bool.not_eq_true _ ▸ hv
    simp only [hv', Bool.false_eq_true, if_false]
    by_cases hck : (!ck) = true
    · simp only [hck, if_true, pyRaise]
      exact ⟨⟨_, rfl⟩, ⟨[], by simp, rfl, by simp⟩⟩
    · have hck' : (!ck) = false := Bool.not_eq_true _ ▸ hck
      simp only [hck', Bool.false_eq_true, if_false]
      rw [pyTry_apply]
      obtain ⟨⟨e, he⟩, ⟨l, hl, ha, hlen⟩⟩ := body_blank env guess_type sn ver bu du df s hb
      split
      · rename_i r s₂ hbody_eq
        rw [hbody_eq] at he
        simp at he
      · rename_i e₁ s₂ hbody_eq
        rw [hbody_eq] at hl
        rcases e₁ with ⟨c, d⟩ | m | m <;> simp only [pyRaise] <;>
          exact ⟨⟨_, rfl⟩, ⟨l, hl, ha, hlen⟩⟩

theorem Env.withUsage_arun (env : Env σ) (g : UsagePrompt → σ → CallResult String × σ) :
    (env.withUsage g).usage_agent_arun = g := rfl

/-- The code-acquisition phase never consults the usage-example agent:
replacing that agent leaves it unchanged. -/
theorem acquire_withUsage (env : Env σ) (g : UsagePrompt → σ → CallResult String × σ)
    (guess_type : String → Option String) (sn ver bu : String)
    (du : Option String) (df : Option UploadFile) :
    acquire_sdk_code (env.withUsage g) guess_type sn ver bu du df =
      acquire_sdk_code env guess_type sn ver bu du df := by
  cases env
  rfl

/-! ### Claim theorems -/

/-- Claim C1: if the Usage Example Stage raises any error, the overall
request still succeeds, `sdk_usage_example` equals the fixed
placeholder "Error generating usage example.", and `sdk_code` and
`message` are the same as in the run where the stage succeeded. -/
theorem C1_usage_failure_isolated (σ : Type) (env : Env σ)
    (g : UsagePrompt → σ → CallResult String × σ)
    (hg : ∀ p t, ((g p t).1.isOkB) = false)
    (guess_type : String → Option String) (ck : Bool) (sn ver bu : String)
    (du : Option String) (df : Option UploadFile) (svc : σ) (r : GenerateSdkResponse)
    (hok : (runGenerateSdk env guess_type ck sn ver bu du df svc).1 = .ok r) :
    ∃ r', (runGenerateSdk (env.withUsage g) guess_type ck sn ver bu du df svc).1 = .ok r' ∧
      r'.sdk_usage_example = "Error generating usage example." ∧
      r'.sdk_code = r.sdk_code ∧ r'.message = r.message := by
  have hv : (!(pyTruthyStr du) && df.isNone) = false := by
    cases hb : (!(pyTruthyStr du) && df.isNone)
    · rfl
    · exfalso
      unfold runGenerateSdk generate_sdk_endpoint at hok
      simp [hb, pyRaise] at hok
  have hck : ck = true := by
    cases hckc : ck
    · exfalso
      unfold runGenerateSdk generate_sdk_endpoint at hok
      simp [hv, hckc, pyRaise] at hok
    · rfl
  obtain ⟨code, s₁, hacq, hcode, hmsg, -⟩ :=
    endpoint_ok env guess_type ck sn ver bu du df ⟨svc, []⟩ r hok
  have hbody : ∃ S, generate_sdk_body (env.withUsage g) guess_type sn ver bu du df ⟨svc, []⟩ =
      (.ok ⟨code, usage_example_fallback, success_message sn⟩, S) := by
    unfold generate_sdk_body
    rw [ReqM.bind_apply, acquire_withUsage env g guess_type sn ver bu du df, hacq]
    simp only []
    rw [ReqM.bind_apply, usage_example_run]
    rcases hgo : ((env.withUsage g).usage_agent_arun ⟨code, sn, bu⟩ s₁.svc).1 with v | m | m
    · exfalso
      have hgg := hg ⟨code, sn, bu⟩ s₁.svc
      rw [Env.withUsage_arun] at hgo
      rw [hgo] at hgg
      simp [CallResult.isOkB] at hgg
    · simp only [hgo, ReqM.pure]
      exact ⟨_, rfl⟩
    · simp only [hgo, ReqM.pure]
      exact ⟨_, rfl⟩
  obtain ⟨S, hbody⟩ := hbody
  refine ⟨⟨code, usage_example_fallback, success_message sn⟩, ?_, rfl, hcode.symm, hmsg.symm⟩
  unfold runGenerateSdk generate_sdk_endpoint
  simp only [hv, Bool.false_eq_true, if_false, hck, Bool.not_true, if_false]
  rw [pyTry_apply, hbody]

/-- Witness for C1: in the concrete happy-path environment, crashing
the usage agent still yields a successful response with the placeholder
example and the same code and message as the successful run. -/
theorem C1_witness :
    ∃ r', (runGenerateSdk (testEnv.withUsage failingUsageAgent) guessPdfOnly true ("MyApiSdk")
        "1.0.0" "https://api.example.com/v1" (some ("https://example.com/readme")) none ()).1 =
        .ok r' ∧
      r'.sdk_usage_example = "Error generating usage example." ∧
      r'.sdk_code = (⟨"class MyApiSdk extends Object", "const sdk = new MyApiSdk(baseUrl);",
        "TypeScript SDK generated successfully! SDK Name: MyApiSdk"⟩ :
          GenerateSdkResponse).sdk_code ∧
      r'.message = (⟨"class MyApiSdk extends Object", "const sdk = new MyApiSdk(baseUrl);",
        "TypeScript SDK generated successfully! SDK Name: MyApiSdk"⟩ :
          GenerateSdkResponse).message :=
  C1_usage_failure_isolated Unit testEnv failingUsageAgent (fun _ _ => rfl) guessPdfOnly true
    ("MyApiSdk") "1.0.0" "https://api.example.com/v1" (some ("https://example.com/readme")) none ()
    ⟨"class MyApiSdk extends Object", "const sdk = new MyApiSdk(baseUrl);",
      "TypeScript SDK generated successfully! SDK Name: MyApiSdk"⟩ rfl

/-- Claim C2: when both `doc_url` and `doc_file` are absent (falsy), the
request fails with the 400 validation error and the network-call trace
is empty — no workflow, ingestion, retrieval, or model call happens. -/
theorem C2_validation_before_network (σ : Type) (env : Env σ)
    (guess_type : String → Option String) (ck : Bool) (sn ver bu : String)
    (du : Option String) (df : Option UploadFile) (svc : σ)
    (h1 : pyTruthyStr du = false) (h2 : df = none) :
    runGenerateSdk env guess_type ck sn ver bu du df svc =
      (.error (.http 400 missing_source_detail), ⟨svc, []⟩) := by
  unfold runGenerateSdk generate_sdk_endpoint
  simp [h1, h2, pyRaise]

theorem C2_witness :
    runGenerateSdk testEnv guessPdfOnly true ("MyApiSdk") "1.0.0" "https://api.example.com/v1"
        none none () =
      (.error (.http 400 missing_source_detail), ⟨(), []⟩) :=
  C2_validation_before_network Unit testEnv guessPdfOnly true ("MyApiSdk") "1.0.0"
    "https://api.example.com/v1" none none () rfl rfl

/-- Claim C3: every successful request returns non-empty `sdk_code`
containing at least one of the keywords "interface", "class", "async",
"fetch"; and when the team only ever produces code containing none of
them, no request succeeds. -/
theorem C3_generation_quality (σ : Type) (env : Env σ)
    (guess_type : String → Option String) (ck : Bool) (sn ver bu : String)
    (du : Option String) (df : Option UploadFile) (svc : σ) :
    (∀ r : GenerateSdkResponse,
      (runGenerateSdk env guess_type ck sn ver bu du df svc).1 = .ok r →
        r.sdk_code ≠ "" ∧
        (sdk_keywords.any (fun kw => strContainsSub r.sdk_code kw)) = true) ∧
    ((∀ inp t c, (env.team_arun inp t).1 = CallResult.ok c → sdk_code_rejected c = true) →
      ∀ r : GenerateSdkResponse,
        (runGenerateSdk env guess_type ck sn ver bu du df svc).1 ≠ .ok r) := by
  constructor
  · intro r hok
    obtain ⟨code, s₁, hacq, hcode, -, -⟩ :=
      endpoint_ok env guess_type ck sn ver bu du df ⟨svc, []⟩ r hok
    obtain ⟨hrej, -⟩ := acquire_ok env guess_type sn ver bu du df ⟨svc, []⟩ code s₁ hacq
    rw [hcode]
    unfold sdk_code_rejected at hrej
    simp only [Bool.or_eq_false_iff] at hrej
    refine ⟨?_, by simpa using hrej.2⟩
    intro hempty
    rw [hempty] at hrej
    simpa using hrej.1
  · intro hteam r hok
    obtain ⟨code, s₁, hacq, -, -, -⟩ :=
      endpoint_ok env guess_type ck sn ver bu du df ⟨svc, []⟩ r hok
    obtain ⟨hrej, inp, t, hok_team⟩ :=
      acquire_ok env guess_type sn ver bu du df ⟨svc, []⟩ code s₁ hacq
    have := hteam inp t code hok_team
    rw [this] at hrej
    cases hrej

/-- Variant of `testEnv` with a team that produces implausible output. -/
def badTeamEnv : Env Unit :=
  { testEnv with team_arun := fun _ s => (.ok ("hello world"), s) }

theorem C3_witness :
    ((⟨"class MyApiSdk extends Object", "const sdk = new MyApiSdk(baseUrl);",
        "TypeScript SDK generated successfully! SDK Name: MyApiSdk"⟩ :
          GenerateSdkResponse).sdk_code ≠ "" ∧
      (sdk_keywords.any (fun kw => strContainsSub
        (⟨"class MyApiSdk extends Object", "const sdk = new MyApiSdk(baseUrl);",
          "TypeScript SDK generated successfully! SDK Name: MyApiSdk"⟩ :
            GenerateSdkResponse).sdk_code kw)) = true) ∧
    (runGenerateSdk badTeamEnv guessPdfOnly true ("MyApiSdk") "1.0.0" "https://api.example.com/v1"
        (some ("https://example.com/readme")) none ()).1 ≠
      .ok ⟨"hello world", "x", "y"⟩ := by
  constructor
  · exact (C3_generation_quality Unit testEnv guessPdfOnly true ("MyApiSdk") "1.0.0"
      "https://api.example.com/v1" (some ("https://example.com/readme")) none ()).1
      ⟨"class MyApiSdk extends Object", "const sdk = new MyApiSdk(baseUrl);",
        "TypeScript SDK generated successfully! SDK Name: MyApiSdk"⟩ rfl
  · exact (C3_generation_quality Unit badTeamEnv guessPdfOnly true ("MyApiSdk") "1.0.0"
      "https://api.example.com/v1" (some ("https://example.com/readme")) none ()).2
      (fun inp t c hc => by
        injection hc with hc'
        rw [← hc']
        decide)
      ⟨"hello world", "x", "y"⟩

/-- Claim C4: the MIME fallback chain — a truthy declared content type
other than `application/octet-stream` wins; otherwise a truthy
`mimetypes.guess_type` result wins; otherwise the fixed extension
table applies (ending in the generic binary fallback).  In particular
"spec.md" and "spec.pdf" declared as `application/octet-stream`
resolve to "text/markdown" and "application/pdf" (for any stdlib whose
guesses for those names are absent or standard). -/
theorem C4_mime_resolution (guess_type : String → Option String)
    (h1 : guess_type ("spec.md") = none ∨ guess_type ("spec.md") = some ("text/markdown"))
    (h2 : guess_type ("spec.pdf") = none ∨ guess_type ("spec.pdf") = some ("application/pdf")) :
    resolve_mime_type guess_type (some ("application/octet-stream")) "spec.md" = "text/markdown" ∧
    resolve_mime_type guess_type (some ("application/octet-stream")) "spec.pdf" = "application/pdf" ∧
    (∀ ct fn, ct ≠ "application/octet-stream" → ct ≠ "" →
      resolve_mime_type guess_type (some ct) fn = ct) ∧
    (∀ fn g, guess_type fn = some g → g ≠ "" →
      resolve_mime_type guess_type (some ("application/octet-stream")) fn = g) ∧
    (∀ fn, guess_type fn = none →
      resolve_mime_type guess_type (some ("application/octet-stream")) fn =
        extension_fallback fn) := by
  refine ⟨?_, ?_, ?_, ?_, ?_⟩
  · rcases h1 with h | h <;> (simp [resolve_mime_type, h]; try decide)
  · rcases h2 with h | h <;> (simp [resolve_mime_type, h]; try decide)
  · intro ct fn hct hne
    simp [resolve_mime_type, pyTruthyStr, hct, hne]
  · intro fn g hg hne
    simp [resolve_mime_type, hg, hne]
  · intro fn hg
    simp [resolve_mime_type, hg]

theorem C4_witness :
    resolve_mime_type guessPdfOnly (some ("application/octet-stream")) "spec.md" =
      "text/markdown" ∧
    resolve_mime_type guessPdfOnly (some ("application/octet-stream")) "spec.pdf" =
      "application/pdf" :=
  ⟨(C4_mime_resolution guessPdfOnly (Or.inl rfl) (Or.inr rfl)).1,
   (C4_mime_resolution guessPdfOnly (Or.inl rfl) (Or.inr rfl)).2.1⟩

/-- Claim C5: under the honest workflow-store model, two sequential
calls of the Workflow Provisioner return the same workflow identifier,
and the second call issues no creation request — it finds the workflow
by its fixed name through lookup-before-create. -/
theorem C5_provisioner_idempotent (s : GraphlitState) :
    (∃ wid,
      (get_or_create_graphlit_workflow honestGraphlitEnv ⟨s, []⟩).1 = .ok wid ∧
      (get_or_create_graphlit_workflow honestGraphlitEnv
        ⟨(get_or_create_graphlit_workflow honestGraphlitEnv ⟨s, []⟩).2.svc, []⟩).1 =
          .ok wid) ∧
    ((get_or_create_graphlit_workflow honestGraphlitEnv
        ⟨(get_or_create_graphlit_workflow honestGraphlitEnv ⟨s, []⟩).2.svc, []⟩).2.trace.filter
      NetCall.isCreateWorkflowB) = [] := by
  rcases hws : s.workflows.filter (fun w => w.name == workflow_name) with _ | ⟨w, rest⟩
  · constructor
    · refine ⟨"workflow-" ++ toString s.freshId, ?_, ?_⟩
      · rw [get_or_create_run]
        simp [honestGraphlitEnv, honestQueryWorkflows, honestCreateWorkflow, hws]
      · rw [get_or_create_run, get_or_create_run]
        simp [honestGraphlitEnv, honestQueryWorkflows, honestCreateWorkflow, hws,
          List.filter_append]
    · rw [get_or_create_run, get_or_create_run]
      simp [honestGraphlitEnv, honestQueryWorkflows, honestCreateWorkflow, hws,
        List.filter_append, NetCall.isCreateWorkflowB]
  · constructor
    · refine ⟨w.id, ?_, ?_⟩
      · rw [get_or_create_run]
        simp [honestGraphlitEnv, honestQueryWorkflows, hws]
      · rw [get_or_create_run, get_or_create_run]
        simp [honestGraphlitEnv, honestQueryWorkflows, hws]
    · rw [get_or_create_run, get_or_create_run]
      simp [honestGraphlitEnv, honestQueryWorkflows, hws, NetCall.isCreateWorkflowB]

/-- Claim C6: every successful response carries the fixed message
template with the request's `sdk_name` substituted; for
`sdk_name = "MyApiSdk"` the message is exactly
"TypeScript SDK generated successfully! SDK Name: MyApiSdk". -/
theorem C6_success_message (σ : Type) (env : Env σ)
    (guess_type : String → Option String) (ck : Bool) (sn ver bu : String)
    (du : Option String) (df : Option UploadFile) (svc : σ) (r : GenerateSdkResponse)
    (hok : (runGenerateSdk env guess_type ck sn ver bu du df svc).1 = .ok r) :
    r.message = "TypeScript SDK generated successfully! SDK Name: " ++ sn := by
  obtain ⟨code, s₁, -, -, hmsg, -⟩ :=
    endpoint_ok env guess_type ck sn ver bu du df ⟨svc, []⟩ r hok
  exact hmsg

theorem C6_witness :
    (⟨"class MyApiSdk extends Object", "const sdk = new MyApiSdk(baseUrl);",
      "TypeScript SDK generated successfully! SDK Name: MyApiSdk"⟩ :
        GenerateSdkResponse).message =
      "TypeScript SDK generated successfully! SDK Name: " ++ "MyApiSdk" :=
  C6_success_message Unit testEnv guessPdfOnly true ("MyApiSdk") "1.0.0"
    "https://api.example.com/v1" (some ("https://example.com/readme")) none ()
    ⟨"class MyApiSdk extends Object", "const sdk = new MyApiSdk(baseUrl);",
      "TypeScript SDK generated successfully! SDK Name: MyApiSdk"⟩ rfl

/-- Claim C7: when every retrieval yields absent, empty, or blank
(whitespace-only) markdown, the request fails, no model invocation is
ever attempted, and the retrieval is performed at most once (no
retry). -/
theorem C7_blank_content_terminal (σ : Type) (env : Env σ)
    (guess_type : String → Option String) (ck : Bool) (sn ver bu : String)
    (du : Option String) (df : Option UploadFile) (svc : σ)
    (hb : BlankContent env) :
    (∃ e, (runGenerateSdk env guess_type ck sn ver bu du df svc).1 = .error e) ∧
    ((runGenerateSdk env guess_type ck sn ver bu du df svc).2.trace.all
      (fun c => !c.isModelCallB)) = true ∧
    ((runGenerateSdk env guess_type ck sn ver bu du df svc).2.trace.filter
      NetCall.isGetContentB).length ≤ 1 := by
  obtain ⟨he, ⟨l, hl, ha, hlen⟩⟩ :=
    endpoint_blank env guess_type ck sn ver bu du df ⟨svc, []⟩ hb
  refine ⟨he, ?_, ?_⟩
  · unfold runGenerateSdk
    rw [hl]
    simpa using ha
  · unfold runGenerateSdk
    rw [hl]
    simpa using hlen

theorem C7_witness :
    (∃ e, (runGenerateSdk blankContentEnv guessPdfOnly true ("MyApiSdk") "1.0.0"
      "https://api.example.com/v1" (some ("https://example.com/readme")) none ()).1 =
        .error e) ∧
    ((runGenerateSdk blankContentEnv guessPdfOnly true ("MyApiSdk") "1.0.0"
      "https://api.example.com/v1" (some ("https://example.com/readme")) none ()).2.trace.all
        (fun c => !c.isModelCallB)) = true ∧
    ((runGenerateSdk blankContentEnv guessPdfOnly true ("MyApiSdk") "1.0.0"
      "https://api.example.com/v1" (some ("https://example.com/readme")) none ()).2.trace.filter
        NetCall.isGetContentB).length ≤ 1 :=
  C7_blank_content_terminal Unit blankContentEnv guessPdfOnly true ("MyApiSdk") "1.0.0"
    "https://api.example.com/v1" (some ("https://example.com/readme")) none ()
    (fun id t cd h => by
      cases h
      right
      exact ⟨"   ", rfl, rfl⟩)

/-- The externally visible status of one run. -/
def statusOf : Except PyExc GenerateSdkResponse → Option Nat
  | .error (.http status_code _) => some status_code
  | _ => none

/-- Counterexample to claim C8 as stated: the validation failure
returns status 400 while an upstream workflow failure returns status
500, so failing requests do not all map to a single status code. -/
theorem C8_counterexample :
    statusOf (runGenerateSdk testEnv guessPdfOnly true ("MyApiSdk") "1.0.0"
      "https://api.example.com/v1" none none ()).1 = some 400 ∧
    statusOf (runGenerateSdk outageEnv guessPdfOnly true ("MyApiSdk") "1.0.0"
      "https://api.example.com/v1" (some ("https://example.com/readme")) none ()).1 = some 500 ∧
    (400 : Nat) ≠ 500 :=
  ⟨rfl, rfl, by decide⟩

/-- Claim C8 (amended): every failing request returns an
`HTTPException`; its status is 400 exactly for the missing-source
validation failure and 500 for every other error class (upstream,
empty-content, generation-quality, uncaught) — those share the single
status 500 and are distinguishable only via the detail text. -/
theorem C8_amended_failure_status (σ : Type) (env : Env σ)
    (guess_type : String → Option String) (ck : Bool) (sn ver bu : String)
    (du : Option String) (df : Option UploadFile) (svc : σ) (e : PyExc)
    (herr : (runGenerateSdk env guess_type ck sn ver bu du df svc).1 = .error e) :
    (e = .http 400 missing_source_detail ∧ pyTruthyStr du = false ∧ df = none) ∨
    (∃ d, e = .http 500 d) :=
  endpoint_err env guess_type ck sn ver bu du df ⟨svc, []⟩ e herr

theorem C8_amended_witness :
    ((PyExc.http 400 missing_source_detail) = .http 400 missing_source_detail ∧
      pyTruthyStr (none : Option String) = false ∧ (none : Option UploadFile) = none) ∨
    (∃ d, (PyExc.http 400 missing_source_detail) = .http 500 d) :=
  C8_amended_failure_status Unit testEnv guessPdfOnly true ("MyApiSdk") "1.0.0"
    "https://api.example.com/v1" none none () (.http 400 missing_source_detail) rfl

/-- Claim C9: exactly one document source is effectively used — with
neither source the request is rejected before any network call; with a
truthy `doc_url` the uploaded file is never ingested; with a falsy
`doc_url` no URL ingestion ever happens. -/
theorem C9_single_effective_source (σ : Type) (env : Env σ)
    (guess_type : String → Option String) (ck : Bool) (sn ver bu : String)
    (du : Option String) (df : Option UploadFile) (svc : σ) :
    (pyTruthyStr du = false → df = none →
      runGenerateSdk env guess_type ck sn ver bu du df svc =
        (.error (.http 400 missing_source_detail), ⟨svc, []⟩)) ∧
    (pyTruthyStr du = true →
      ((runGenerateSdk env guess_type ck sn ver bu du df svc).2.trace.all
        (fun c => !c.isFileIngestB)) = true) ∧
    (pyTruthyStr du = false →
      ((runGenerateSdk env guess_type ck sn ver bu du df svc).2.trace.all
        (fun c => !c.isUriIngestB)) = true) := by
  refine ⟨?_, ?_, ?_⟩
  · intro h1 h2
    unfold runGenerateSdk generate_sdk_endpoint
    simp [h1, h2, pyRaise]
  · intro h1
    have hacq := acquire_tr_uri env guess_type sn ver bu du df ⟨svc, []⟩ h1
    have hbody := body_tr env guess_type sn ver bu du df ⟨svc, []⟩ _ hacq (fun pr => rfl)
    have hep := endpoint_tr env guess_type ck sn ver bu du df ⟨svc, []⟩ _ hbody
    obtain ⟨l, hl, ha⟩ := hep
    unfold runGenerateSdk
    rw [hl]
    simpa using ha
  · intro h1
    have hacq := acquire_tr_file env guess_type sn ver bu du df ⟨svc, []⟩ h1
    have hbody := body_tr env guess_type sn ver bu du df ⟨svc, []⟩ _ hacq (fun pr => rfl)
    have hep := endpoint_tr env guess_type ck sn ver bu du df ⟨svc, []⟩ _ hbody
    obtain ⟨l, hl, ha⟩ := hep
    unfold runGenerateSdk
    rw [hl]
    simpa using ha

theorem C9_witness :
    runGenerateSdk testEnv guessPdfOnly true ("MyApiSdk") "1.0.0" "https://api.example.com/v1"
        none none () =
      (.error (.http 400 missing_source_detail), ⟨(), []⟩) ∧
    ((runGenerateSdk testEnv guessPdfOnly true ("MyApiSdk") "1.0.0" "https://api.example.com/v1"
      (some ("https://example.com/readme")) none ()).2.trace.all
        (fun c => !c.isFileIngestB)) = true :=
  ⟨(C9_single_effective_source Unit testEnv guessPdfOnly true ("MyApiSdk") "1.0.0"
      "https://api.example.com/v1" none none ()).1 rfl rfl,
   (C9_single_effective_source Unit testEnv guessPdfOnly true ("MyApiSdk") "1.0.0"
      "https://api.example.com/v1" (some ("https://example.com/readme")) none ()).2.1 rfl⟩

/-- The Workflow Provisioner's first network call is always the
workflow lookup. -/
theorem get_or_create_trace_head (env : Env σ) (svc : σ) :
    ∃ rest, (get_or_create_graphlit_workflow env ⟨svc, []⟩).2.trace =
      NetCall.queryWorkflows workflow_name :: rest := by
  rw [get_or_create_run]
  split
  · exact ⟨[], rfl⟩
  · split
    · exact ⟨[.createWorkflow workflow_name], rfl⟩
    · exact ⟨[.createWorkflow workflow_name], rfl⟩
    · exact ⟨[.createWorkflow workflow_name], rfl⟩
  · exact ⟨[], rfl⟩
  · exact ⟨[], rfl⟩

/-- Claim C10: when the Ingestion Adapter is called with neither a URL
nor file content, it still provisions the workflow first — the first
recorded network call is the workflow lookup — and only afterwards
fails with its own missing-source validation error (raised as a 400
inside the `try` block and re-raised by the adapter's generic exception
handler wrapped as a 500); no actual ingestion call is made. -/
theorem C10_adapter_validates_after_provisioning (σ : Type) (env : Env σ)
    (doc_name : String) (svc : σ) :
    (∃ e, (ingest_document_with_graphlit env doc_name none none none ⟨svc, []⟩).1 =
      .error e) ∧
    (∃ rest, (ingest_document_with_graphlit env doc_name none none none ⟨svc, []⟩).2.trace =
      NetCall.queryWorkflows workflow_name :: rest) ∧
    ((ingest_document_with_graphlit env doc_name none none none ⟨svc, []⟩).2.trace.all
      (fun c => !c.isUriIngestB && !c.isFileIngestB)) = true ∧
    (∀ wid, (get_or_create_graphlit_workflow env ⟨svc, []⟩).1 = .ok wid →
      (ingest_document_with_graphlit env doc_name none none none ⟨svc, []⟩).1 =
        .error (.http 500 ("Backend error during ingestion: " ++
          strExc (.http 400 ("Either doc_url or uploaded file content is required for ingestion."))))) := by
  have hrun := ingest_run_nosource env doc_name none none none ⟨svc, []⟩ rfl rfl
  have hhead := get_or_create_trace_head env svc
  have htr := get_or_create_tr env ⟨svc, []⟩
  rcases hg : get_or_create_graphlit_workflow env ⟨svc, []⟩ with ⟨rg, s₁⟩
  rw [hg] at hrun htr
  obtain ⟨rest, hrest⟩ := hhead
  rw [hg] at hrest
  obtain ⟨l, hl, ha⟩ := htr
  rcases rg with eg | wid
  · simp only [] at hrun
    refine ⟨⟨eg, by rw [hrun]⟩, ⟨rest, by rw [hrun]; exact hrest⟩, ?_, ?_⟩
    · rw [hrun]
      have : s₁.trace = l := by simpa using hl
      rw [this]
      simp only [List.all_eq_true] at ha ⊢
      intro c hc
      have := ha c hc
      cases c <;> simp_all [NetCall.isWorkflowCallB, NetCall.isUriIngestB, NetCall.isFileIngestB]
    · intro wid' hwid'
      simp at hwid'
  · simp only [] at hrun
    refine ⟨⟨_, by rw [hrun]⟩, ⟨rest, by rw [hrun]; exact hrest⟩, ?_, ?_⟩
    · rw [hrun]
      have : s₁.trace = l := by simpa using hl
      rw [this]
      simp only [List.all_eq_true] at ha ⊢
      intro c hc
      have := ha c hc
      cases c <;> simp_all [NetCall.isWorkflowCallB, NetCall.isUriIngestB, NetCall.isFileIngestB]
    · intro wid' hwid'
      rw [hrun]

theorem C10_witness :
    (∃ e, (ingest_document_with_graphlit honestGraphlitEnv ("doc") none none none
      ⟨⟨[], 0⟩, []⟩).1 = .error e) ∧
    (∃ rest, (ingest_document_with_graphlit honestGraphlitEnv ("doc") none none none
      ⟨⟨[], 0⟩, []⟩).2.trace = NetCall.queryWorkflows workflow_name :: rest) ∧
    ((ingest_document_with_graphlit honestGraphlitEnv ("doc") none none none
      ⟨⟨[], 0⟩, []⟩).2.trace.all (fun c => !c.isUriIngestB && !c.isFileIngestB)) = true ∧
    (∀ wid, (get_or_create_graphlit_workflow honestGraphlitEnv ⟨⟨[], 0⟩, []⟩).1 = .ok wid →
      (ingest_document_with_graphlit honestGraphlitEnv ("doc") none none none
        ⟨⟨[], 0⟩, []⟩).1 =
        .error (.http 500 ("Backend error during ingestion: " ++
          strExc (.http 400 ("Either doc_url or uploaded file content is required for ingestion."))))) :=
  C10_adapter_validates_after_provisioning GraphlitState honestGraphlitEnv ("doc") ⟨[], 0⟩
